import Mathlib

/-!
Verification of the k3s-platform manifest generators.

This file is a shallow embedding, in Lean 4, of the configuration data
model and the Kubernetes-manifest generators of the repository
(`k3sapp`, `k3scompose`, `k3sfn`), together with theorems about the
embedded functions.

Conventions of the embedding:
* Python dataclasses become Lean structures; field names are kept.
* Python `dict`s become association lists (`List (String × _)`) in
  insertion order; `dictInsert` mirrors `d[k] = v` (update in place,
  append when the key is new) and `dictGet?` mirrors `d.get(k)`.
* Kubernetes manifests (nested dict/list values) become the inductive
  type `Val`.
* Python strings are embedded as `List Char` where character-level
  reasoning is needed (the name/unit conversion helpers) and as
  `String` elsewhere; `Char.toLower` models `str.lower` (they agree on
  ASCII, which is all the proofs below rely on).
* Functions that raise become `Except String _`.
* `os.environ` becomes an explicit `procEnv` parameter.
-/

/-- JSON-like manifest values (the shape of the generated Kubernetes
manifests: nested dicts, lists, strings, ints and bools). -/
inductive Val where
  | str : String → Val
  | num : Int → Val
  | bool : Bool → Val
  | null : Val
  | arr : List Val → Val
  | obj : List (String × Val) → Val

/-- Python `d[k] = v` on an insertion-ordered dict: update the value in
place when the key is present, append otherwise. -/
def dictInsert {α : Type} : List (String × α) → String → α → List (String × α)
  | [], k, v => [(k, v)]
  | (k', v') :: rest, k, v =>
    if k' = k then (k', v) :: rest else (k', v') :: dictInsert rest k v

/-- Python `d.get(k)`. -/
def dictGet? {α : Type} : List (String × α) → String → Option α
  | [], _ => none
  | (k', v) :: rest, k => if k' = k then some v else dictGet? rest k

/-- Look a key path up inside nested `Val.obj`s. -/
def getPath : List String → Val → Option Val
  | [], v => some v
  | k :: ks, Val.obj l =>
    match dictGet? l k with
    | some v' => getPath ks v'
    | none => none
  | _ :: _, _ => none

/-- The `kind` field of a manifest object (`""` when absent). -/
def kindOf (m : Val) : String :=
  match m with
  | Val.obj l =>
    match dictGet? l "kind" with
    | some (Val.str s) => s
    | _ => ""
  | _ => ""

/-- `Option.toList` for manifests: the way the generators append an
optional manifest to the output list. -/
def optList : Option Val → List Val
  | some v => [v]
  | none => []

/-- Python truthiness of an `Optional[str]` (`None` and `""` are
falsy). -/
def pySome : Option String → Bool
  | some s => !(s == "")
  | none => false

/-- Python truthiness of an `Optional[List]` (`None` and `[]` are
falsy). -/
def pySomeList {α : Type} : Option (List α) → Bool
  | some l => !l.isEmpty
  | none => false

/-- Python `a or b` on strings, `a` optional (`None`/`""` falsy). -/
def pyOrStr (a : Option String) (b : String) : String :=
  match a with
  | some s => if s == "" then b else s
  | none => b

/-- Python `a or b` on ints (`0` falsy). -/
def pyOrInt (a b : Int) : Int :=
  if a == 0 then b else a

/-- Python `needle in hay` on strings (substring test). -/
def pySubstr (needle hay : String) : Bool :=
  hay.toList.tails.any (fun t => needle.toList.isPrefixOf t)

namespace PyStr

/-- Model of Python `str.lower` (character-wise; agrees with Python on
ASCII, which is all the repository's names use). -/
def lower (l : List Char) : List Char := l.map Char.toLower

/-- Model of Python `int(s)` on a string of decimal digits (used by
the embedding wherever the source converts a digit run to a number). -/
def digitsToNat (l : List Char) : Nat :=
  l.foldl (fun acc c => acc * 10 + (c.toNat - 48)) 0

/-- `[a-z0-9-]`: the characters a valid Kubernetes resource name may
contain. -/
def isK8sNameChar (c : Char) : Bool :=
  ('a' ≤ c && c ≤ 'z') || ('0' ≤ c && c ≤ '9') || c = '-'

end PyStr

namespace K3sCompose

/-- `_to_k8s_name` step `re.sub(r"-+", "-", name)`: collapse runs of
dashes to a single dash. -/
def collapseDashes : List Char → List Char
  | [] => []
  | [c] => [c]
  | c1 :: c2 :: rest =>
    if c1 = '-' && c2 = '-' then collapseDashes (c2 :: rest)
    else c1 :: collapseDashes (c2 :: rest)

/-- `_to_k8s_name` step `name.strip("-")`. -/
def stripDashes (l : List Char) : List Char :=
  ((l.dropWhile (· = '-')).reverse.dropWhile (· = '-')).reverse

/-- `k3scompose.generators._to_k8s_name`: lowercase, replace every
character outside `[a-z0-9-]` with `-`, strip leading/trailing dashes,
collapse dash runs, truncate to 63 characters. -/
def toK8sName (name : List Char) : List Char :=
  let lowered := PyStr.lower name
  let replaced := lowered.map (fun c => if PyStr.isK8sNameChar c then c else '-')
  let stripped := stripDashes replaced
  let collapsed := collapseDashes stripped
  collapsed.take 63

/-- `_parse_duration`: docker-compose duration string to seconds.
`re.match(r"(\d+)(s|m|h)?", duration)`: a leading digit run, then an
optional unit. -/
def parseDuration (duration : List Char) : Int :=
  if duration = [] then 0
  else
    let digits := duration.takeWhile Char.isDigit
    match digits with
    | [] => 0
    | _ =>
      let value : Int := Int.ofNat (PyStr.digitsToNat digits)
      let rest := duration.dropWhile Char.isDigit
      match rest with
      | 'm' :: _ => value * 60
      | 'h' :: _ => value * 3600
      | _ => value

/-- `_convert_memory`: docker-compose memory format to the Kubernetes
format. -/
def convertMemory (memory : List Char) : List Char :=
  if memory = [] then "256Mi".toList
  else if ['M', 'i'].isSuffixOf memory || ['G', 'i'].isSuffixOf memory
      || ['K', 'i'].isSuffixOf memory then
    memory
  else
    let m := PyStr.lower memory
    if ['g'].isSuffixOf m then m.dropLast ++ ['G', 'i']
    else if ['m'].isSuffixOf m then m.dropLast ++ ['M', 'i']
    else if ['k'].isSuffixOf m then m.dropLast ++ ['K', 'i']
    else m

/-- Model of Python `float(s)` restricted to plain decimal literals
(the compose files use values such as `"0.5"`, `"1"`, `"1.0"`): the
integer part, the fraction digits as an integer, and the number of
fraction digits; `none` when `s` is not a plain decimal literal
(Python would raise `ValueError`). -/
def parseDecimalParts (s : List Char) : Option (Nat × Nat × Nat) :=
  let intPart := s.takeWhile Char.isDigit
  let rest := s.dropWhile Char.isDigit
  match rest with
  | [] =>
    if intPart = [] then none
    else some (PyStr.digitsToNat intPart, 0, 0)
  | '.' :: fracPart =>
    if fracPart.all Char.isDigit && (intPart ≠ [] || fracPart ≠ []) then
      some (PyStr.digitsToNat intPart, PyStr.digitsToNat fracPart, fracPart.length)
    else none
  | _ => none

/-- `_convert_cpu`: docker-compose CPU format (fractional cores) to the
Kubernetes millicpu format.  `int(cores * 1000)` on the decimal value
`a.b` (with `k` fraction digits) is `a * 1000 + b * 1000 / 10 ^ k`;
the binary-float rounding of Python `float` is not modelled — on the
repository's short decimal inputs the two agree. -/
def convertCpu (cpus : List Char) : List Char :=
  if cpus = [] then "100m".toList
  else if ['m'].isSuffixOf cpus then cpus
  else
    match parseDecimalParts cpus with
    | some (a, b, k) => (toString (a * 1000 + b * 1000 / 10 ^ k)).toList ++ ['m']
    | none => cpus

end K3sCompose

/-- `k3sapp.generators._to_k8s_name`: `name.replace("_", "-").lower()`
(and nothing else — no truncation, no replacement of other invalid
characters). -/
def K3sApp.toK8sName (name : List Char) : List Char :=
  PyStr.lower (name.map (fun c => if c = '_' then '-' else c))

/-- A valid Kubernetes resource name in the sense of the specification:
at most 63 characters, all from `[a-z0-9-]`. -/
def isValidK8sName (l : List Char) : Bool :=
  l.length ≤ 63 && l.all PyStr.isK8sNameChar

namespace K3sApp

/-! ### `k3sapp/types.py`: the apps.yaml v2 data model -/

inductive Environment where
  | LOCAL
  | DEV
  | GCP
deriving DecidableEq

def Environment.value : Environment → String
  | .LOCAL => "local"
  | .DEV => "dev"
  | .GCP => "gcp"

inductive ScalingType where
  | HPA
  | KEDA_HTTP
  | KEDA_QUEUE
  | KEDA_CRON
  | NONE
deriving DecidableEq

/-- `Visibility` of `k3sapp` (no `PUBLIC`: external access goes through
gateway routes). -/
inductive Visibility where
  | INTERNAL
  | PRIVATE
  | RESTRICTED
deriving DecidableEq

def Visibility.value : Visibility → String
  | .INTERNAL => "internal"
  | .PRIVATE => "private"
  | .RESTRICTED => "restricted"

inductive PathType where
  | PREFIX
  | EXACT
  | IMPLEMENTATION_SPECIFIC
deriving DecidableEq

def PathType.value : PathType → String
  | .PREFIX => "Prefix"
  | .EXACT => "Exact"
  | .IMPLEMENTATION_SPECIFIC => "ImplementationSpecific"

inductive VolumeType where
  | EMPTY_DIR
  | PVC
  | SECRET
  | CONFIGMAP
deriving DecidableEq

inductive ProbeType where
  | HTTP
  | TCP
  | EXEC
deriving DecidableEq

inductive SecretProvider where
  | GCP
  | AWS
  | VAULT
  | AZURE
deriving DecidableEq

structure SecretRef where
  secret : String
  provider : SecretProvider := .GCP
  version : String := "latest"
  key : Option String := none

structure EnvironmentValue where
  value : Option String := none
  secret_ref : Option SecretRef := none

def EnvironmentValue.is_secret (v : EnvironmentValue) : Bool :=
  v.secret_ref.isSome

structure CronSchedule where
  timezone : String := "UTC"
  start : String := "0 8 * * *"
  «end» : String := "0 18 * * *"
  replicas : Int := 5

/-- `ResourcesConfig`; `__post_init__` defaults `memory_limit` to
`memory`, embedded here by the accessor `memory_limit_value`. -/
structure ResourcesConfig where
  memory : String := "256Mi"
  cpu : String := "100m"
  memory_limit : Option String := none
  cpu_limit : Option String := none
  ephemeral_storage : Option String := none

/-- The value `__post_init__` leaves in `memory_limit`. -/
def ResourcesConfig.memory_limit_value (r : ResourcesConfig) : String :=
  match r.memory_limit with
  | some ml => ml
  | none => r.memory

structure ScalingConfig where
  type : ScalingType := .KEDA_HTTP
  min_instances : Int := 0
  max_instances : Int := 10
  target_pending_requests : Int := 100
  queue_name : Option String := none
  queue_length : Int := 5
  target_cpu_percent : Int := 80
  target_memory_percent : Int := 80
  cooldown_period : Int := 300
  scale_up_stabilization : Int := 0
  scale_down_stabilization : Int := 300
  cron_schedules : List CronSchedule := []

structure ProbeConfig where
  type : ProbeType := .HTTP
  path : String := "/health"
  port : Int := 8080
  command : Option (List String) := none
  initial_delay : Int := 0
  period : Int := 10
  timeout : Int := 1
  success_threshold : Int := 1
  failure_threshold : Int := 3

structure ProbesConfig where
  startup : Option ProbeConfig := none
  readiness : Option ProbeConfig := none
  liveness : Option ProbeConfig := none

structure TlsConfig where
  enabled : Bool := false
  secret : Option String := none
  hosts : List String := []

structure TimeoutsConfig where
  connect : String := "10s"
  server : String := "180s"
  client : String := "180s"
  queue : String := "180s"

/-- `IngressConfig`; the source field `strip_prefix` is named
`stripPrefix` here. -/
structure IngressConfig where
  enabled : Bool := false
  ingress_class : Option String := none
  path : String := "/"
  path_type : PathType := .PREFIX
  stripPrefix : Bool := false
  rewrite_target : Option String := none
  hosts : List String := []
  tls : Option TlsConfig := none
  timeouts : TimeoutsConfig := {}
  annotations : List (String × String) := []

structure NetworkPolicyRule where
  «namespace» : Option String := none
  pod_labels : List (String × String) := []
  cidr : Option String := none

structure NetworkPolicyConfig where
  enabled : Bool := true
  allow_from : List NetworkPolicyRule := []
  allow_to : List NetworkPolicyRule := []

structure PodSecurityContext where
  run_as_non_root : Bool := true
  run_as_user : Option Int := none
  run_as_group : Option Int := none
  fs_group : Option Int := none

structure ContainerSecurityContext where
  allow_privilege_escalation : Bool := false
  read_only_root_filesystem : Bool := false
  capabilities_drop : List String := []
  capabilities_add : List String := []

structure SecurityConfig where
  visibility : Visibility := .PRIVATE
  network_policy : NetworkPolicyConfig := {}
  service_account : Option String := none
  create_service_account : Bool := false
  service_account_annotations : List (String × String) := []
  pod_security_context : Option PodSecurityContext := none
  container_security_context : Option ContainerSecurityContext := none

structure VolumeConfig where
  name : String
  type : VolumeType
  mount_path : String
  read_only : Bool := false
  medium : Option String := none
  size_limit : Option String := none
  size : Option String := none
  storage_class : Option String := none
  access_modes : List String := ["ReadWriteOnce"]
  secret_name : Option String := none
  configmap_name : Option String := none
  items : List (List (String × String)) := []

/-- `EnvFromConfig`; the source field `prefix` is named `keyPrefix`
here. -/
structure EnvFromConfig where
  type : String
  name : String
  keyPrefix : String := ""
  optional : Bool := false

structure PortConfig where
  name : String := "http"
  container_port : Int := 8080
  service_port : Int := 80
  protocol : String := "TCP"

structure ContainerConfig where
  command : Option (List String) := none
  args : Option (List String) := none
  ports : List PortConfig := []
  working_dir : Option String := none

structure BuildConfig where
  dockerfile : String := "Dockerfile"
  dockerfile_dev : Option String := none
  context : String := "."
  target : Option String := none
  args : List (String × String) := []

structure SyncConfig where
  src : String
  dest : String

structure PodDisruptionBudgetConfig where
  min_available : Option Int := none
  max_unavailable : Option Int := none

structure AppEnvOverride where
  enabled : Option Bool := none
  port : Option Int := none
  port_base : Option Int := none
  live_update : Bool := false
  replicas : Option Int := none
  resources : Option ResourcesConfig := none
  scaling : Option ScalingConfig := none
  environment : List (String × String) := []
  sync : List SyncConfig := []
  pod_disruption_budget : Option PodDisruptionBudgetConfig := none
  ingress_annotations : List (String × String) := []

structure AppConfig where
  name : String
  path : String
  «namespace» : String := "apps"
  enabled : Bool := true
  build : BuildConfig := {}
  dockerfile : Option String := none
  dockerfile_dev : Option String := none
  container : ContainerConfig := {}
  resources : ResourcesConfig := {}
  scaling : ScalingConfig := {}
  probes : ProbesConfig := {}
  ingress : IngressConfig := {}
  security : SecurityConfig := {}
  environment : List (String × EnvironmentValue) := []
  env_from : List EnvFromConfig := []
  volumes : List VolumeConfig := []
  «local» : Option AppEnvOverride := none
  dev : Option AppEnvOverride := none
  gcp : Option AppEnvOverride := none

/-- `AppConfig.get_env_override`: `getattr(self, env.value, None)`. -/
def AppConfig.get_env_override (a : AppConfig) : Environment → Option AppEnvOverride
  | .LOCAL => a.«local»
  | .DEV => a.dev
  | .GCP => a.gcp

/-- `AppConfig.get_effective_scaling`. -/
def AppConfig.get_effective_scaling (a : AppConfig) (env : Environment) : ScalingConfig :=
  match a.get_env_override env with
  | some ov =>
    match ov.scaling with
    | some sc => sc
    | none => a.scaling
  | none => a.scaling

/-- `AppConfig.get_effective_resources`. -/
def AppConfig.get_effective_resources (a : AppConfig) (env : Environment) : ResourcesConfig :=
  match a.get_env_override env with
  | some ov =>
    match ov.resources with
    | some r => r
    | none => a.resources
  | none => a.resources

/-- `AppConfig.get_effective_environment`: base environment dict, then
`result[k] = EnvironmentValue(value=v)` for each override entry. -/
def AppConfig.get_effective_environment (a : AppConfig) (env : Environment) :
    List (String × EnvironmentValue) :=
  match a.get_env_override env with
  | some ov =>
    ov.environment.foldl
      (fun result kv => dictInsert result kv.1 { value := some kv.2 })
      a.environment
  | none => a.environment

/-- The regex `\$\{([A-Z_][A-Z0-9_]*)(:-(.*?))?\}` at the start of `l`
(the part after `"${"`): the variable name, the optional default, and
the rest of the input.  The lazy `(.*?)` followed by `\}` matches up to
the first `}`; `.` does not match a newline. -/
def matchBrace (l : List Char) : Option (String × Option String × List Char) :=
  match l with
  | [] => none
  | c :: rest =>
    if ('A' ≤ c && c ≤ 'Z') || c = '_' then
      let nameTail := rest.takeWhile
        (fun d => ('A' ≤ d && d ≤ 'Z') || ('0' ≤ d && d ≤ '9') || d = '_')
      let after := rest.dropWhile
        (fun d => ('A' ≤ d && d ≤ 'Z') || ('0' ≤ d && d ≤ '9') || d = '_')
      match after with
      | '}' :: rest2 => some (String.mk (c :: nameTail), none, rest2)
      | ':' :: '-' :: rest2 =>
        let dflt := rest2.takeWhile (fun d => d ≠ '}')
        let after2 := rest2.dropWhile (fun d => d ≠ '}')
        if dflt.contains '\n' then none
        else
          match after2 with
          | '}' :: rest3 => some (String.mk (c :: nameTail), some (String.mk dflt), rest3)
          | _ => none
      | _ => none
    else none

/-- The `re.sub` scan of `substitute_env_var`: at each position try the
`${VAR}` / `${VAR:-default}` pattern; on a match emit
`os.environ.get(var, default-or-"")` and continue after the match, else
copy the character.  The fuel argument (initialised to the input
length) only bounds the iteration count: every step consumes at least
one character, so the scan never runs out of fuel. -/
def substLoop (procEnv : List (String × String)) : Nat → List Char → List Char
  | 0, l => l
  | _ + 1, [] => []
  | fuel + 1, c :: rest =>
    if c = '$' then
      match rest with
      | '{' :: rest1 =>
        match matchBrace rest1 with
        | some (varName, dflt, rest2) =>
          let replacement :=
            match dictGet? procEnv varName with
            | some v => v
            | none =>
              match dflt with
              | some d => d
              | none => ""
          replacement.toList ++ substLoop procEnv fuel rest2
        | none => c :: substLoop procEnv fuel rest
      | _ => c :: substLoop procEnv fuel rest
    else c :: substLoop procEnv fuel rest

/-- `substitute_env_var` of `AppConfig.get_literal_env_vars`, with
`os.environ` passed explicitly. -/
def substituteEnvVar (procEnv : List (String × String)) (value : String) : String :=
  String.mk (substLoop procEnv value.toList.length value.toList)

/-- `AppConfig.get_literal_env_vars`: the non-secret environment
variables, with `${VAR}` substitution applied. -/
def AppConfig.get_literal_env_vars (a : AppConfig) (env : Environment)
    (procEnv : List (String × String)) : List (String × String) :=
  (a.get_effective_environment env).foldl
    (fun result kv =>
      if kv.2.is_secret = false ∧ kv.2.value.isSome then
        dictInsert result kv.1 (substituteEnvVar procEnv (kv.2.value.getD ""))
      else result)
    []

/-- `AppConfig.get_secret_refs`. -/
def AppConfig.get_secret_refs (a : AppConfig) : List (String × SecretRef) :=
  a.environment.foldl
    (fun result kv =>
      match kv.2.secret_ref with
      | some ref => if kv.2.is_secret then dictInsert result kv.1 ref else result
      | none => result)
    []

/-- `AppConfig.get_primary_port`. -/
def AppConfig.get_primary_port (a : AppConfig) : PortConfig :=
  match a.container.ports with
  | p :: _ => p
  | [] => {}

structure DefaultsConfig where
  «namespace» : String := "apps"
  registry : List (String × String) := []
  ingress : List (String × String) := []

/-- `DefaultsConfig.get_registry`. -/
def DefaultsConfig.get_registry (d : DefaultsConfig) (env : Environment) : String :=
  (dictGet? d.registry env.value).getD ""

/-- `DefaultsConfig.get_ingress_type`. -/
def DefaultsConfig.get_ingress_type (d : DefaultsConfig) (env : Environment) : String :=
  (dictGet? d.ingress env.value).getD "traefik"

structure EnvironmentSpecificConfig where
  domain : String := "localhost"
  tls : Bool := false
  tls_secret : Option String := none
  debug : Bool := false

structure AppsYamlConfig where
  version : String := "2"
  defaults : DefaultsConfig := {}
  environments : List (String × EnvironmentSpecificConfig) := []
  apps : List AppConfig := []
  repositories : List (String × String) := []

/-- `AppsYamlConfig.get_app`. -/
def AppsYamlConfig.get_app (c : AppsYamlConfig) (name : String) : Option AppConfig :=
  c.apps.find? (fun a => a.name == name)

/-! ### `k3sapp/generators.py`: the Kubernetes manifest generators -/

/-- `_to_k8s_name` on `String` (the generators call it on `app.name`). -/
def toK8sNameS (s : String) : String :=
  String.mk (toK8sName s.toList)

/-- `_build_probe`. -/
def build_probe (probe : ProbeConfig) : Val :=
  Val.obj (
    [("periodSeconds", Val.num probe.period),
     ("timeoutSeconds", Val.num probe.timeout),
     ("successThreshold", Val.num probe.success_threshold),
     ("failureThreshold", Val.num probe.failure_threshold)]
    ++ (if probe.initial_delay > 0 then
          [("initialDelaySeconds", Val.num probe.initial_delay)]
        else [])
    ++ (match probe.type, probe.command with
        | .HTTP, _ =>
          [("httpGet", Val.obj [("path", Val.str probe.path), ("port", Val.num probe.port)])]
        | .TCP, _ => [("tcpSocket", Val.obj [("port", Val.num probe.port)])]
        | .EXEC, some (c :: cs) =>
          [("exec", Val.obj [("command", Val.arr ((c :: cs).map Val.str))])]
        | .EXEC, _ => []))

/-- `_build_env_vars`. -/
def build_env_vars (app : AppConfig) (env : Environment)
    (procEnv : List (String × String)) : List Val :=
  (app.get_literal_env_vars env procEnv).map
    (fun kv => Val.obj [("name", Val.str kv.1), ("value", Val.str kv.2)])

/-- `_build_env_from`. -/
def build_env_from (app : AppConfig) : List Val :=
  app.env_from.foldl
    (fun env_from ref =>
      if ref.type == "secret" then
        env_from ++ [Val.obj (
          [("secretRef", Val.obj (
            [("name", Val.str ref.name)]
            ++ (if ref.optional then [("optional", Val.bool true)] else [])))]
          ++ (if ref.keyPrefix == "" then [] else [("prefix", Val.str ref.keyPrefix)]))]
      else if ref.type == "configmap" then
        env_from ++ [Val.obj (
          [("configMapRef", Val.obj (
            [("name", Val.str ref.name)]
            ++ (if ref.optional then [("optional", Val.bool true)] else [])))]
          ++ (if ref.keyPrefix == "" then [] else [("prefix", Val.str ref.keyPrefix)]))]
      else env_from)
    []

/-- `_build_volume`. -/
def build_volume (vol : VolumeConfig) : Val :=
  Val.obj ([("name", Val.str vol.name)]
    ++ (match vol.type with
        | .EMPTY_DIR =>
          [("emptyDir", Val.obj (
            (if pySome vol.medium then [("medium", Val.str (vol.medium.getD ""))] else [])
            ++ (if pySome vol.size_limit then
                  [("sizeLimit", Val.str (vol.size_limit.getD ""))]
                else [])))]
        | .PVC => [("persistentVolumeClaim", Val.obj [("claimName", Val.str vol.name)])]
        | .SECRET =>
          [("secret", Val.obj (
            [("secretName", Val.str (pyOrStr vol.secret_name vol.name))]
            ++ (if vol.items.isEmpty then []
                else [("items", Val.arr (vol.items.map
                  (fun i => Val.obj (i.map (fun p => (p.1, Val.str p.2))))))])))]
        | .CONFIGMAP =>
          [("configMap", Val.obj (
            [("name", Val.str (pyOrStr vol.configmap_name vol.name))]
            ++ (if vol.items.isEmpty then []
                else [("items", Val.arr (vol.items.map
                  (fun i => Val.obj (i.map (fun p => (p.1, Val.str p.2))))))])))]))

/-- `_build_volume_mount`. -/
def build_volume_mount (vol : VolumeConfig) : Val :=
  Val.obj (
    [("name", Val.str vol.name), ("mountPath", Val.str vol.mount_path)]
    ++ (if vol.read_only then [("readOnly", Val.bool true)] else []))

/-- `generate_deployment` (the `os.environ` read inside
`get_literal_env_vars` is the explicit `procEnv`). -/
def generate_deployment (app : AppConfig) (env : Environment) (image : String)
    (config : AppsYamlConfig) (procEnv : List (String × String)) : Val :=
  let name := toK8sNameS app.name
  let resources := app.get_effective_resources env
  let scaling := app.get_effective_scaling env
  let primary_port := app.get_primary_port
  let replicas :=
    let r := if scaling.type ≠ ScalingType.NONE then scaling.min_instances else 1
    match app.get_env_override env with
    | some ov =>
      match ov.replicas with
      | some r2 => r2
      | none => r
    | none => r
  let ports :=
    if app.container.ports.isEmpty then
      [Val.obj [("containerPort", Val.num primary_port.container_port)]]
    else
      app.container.ports.map (fun p => Val.obj
        [("containerPort", Val.num p.container_port),
         ("protocol", Val.str p.protocol),
         ("name", Val.str p.name)])
  let requests :=
    [("memory", Val.str resources.memory), ("cpu", Val.str resources.cpu)]
    ++ (if pySome resources.ephemeral_storage then
          [("ephemeral-storage", Val.str (resources.ephemeral_storage.getD ""))]
        else [])
  let limits :=
    [("memory", Val.str resources.memory_limit_value)]
    ++ (if pySome resources.cpu_limit then
          [("cpu", Val.str (resources.cpu_limit.getD ""))]
        else [])
    ++ (if pySome resources.ephemeral_storage then
          [("ephemeral-storage", Val.str (resources.ephemeral_storage.getD ""))]
        else [])
  let env_vars := build_env_vars app env procEnv
  let env_from :=
    build_env_from app
    ++ (if env ≠ Environment.LOCAL ∧ app.get_secret_refs.isEmpty = false then
          [Val.obj [("secretRef", Val.obj [("name", Val.str (name ++ "-secrets"))])]]
        else [])
  let container := Val.obj (
    [("name", Val.str name),
     ("image", Val.str image),
     ("ports", Val.arr ports),
     ("resources", Val.obj
       [("requests", Val.obj requests), ("limits", Val.obj limits)])]
    ++ (if pySomeList app.container.command then
          [("command", Val.arr ((app.container.command.getD []).map Val.str))]
        else [])
    ++ (if pySomeList app.container.args then
          [("args", Val.arr ((app.container.args.getD []).map Val.str))]
        else [])
    ++ (if env_vars.isEmpty then [] else [("env", Val.arr env_vars)])
    ++ (if env_from.isEmpty then [] else [("envFrom", Val.arr env_from)])
    ++ (match app.probes.startup with
        | some p => [("startupProbe", build_probe p)]
        | none => [])
    ++ (match app.probes.readiness with
        | some p => [("readinessProbe", build_probe p)]
        | none => [])
    ++ (match app.probes.liveness with
        | some p => [("livenessProbe", build_probe p)]
        | none => [])
    ++ (if app.volumes.isEmpty then []
        else [("volumeMounts", Val.arr (app.volumes.map build_volume_mount))])
    ++ (match app.security.container_security_context with
        | some sec_ctx =>
          [("securityContext", Val.obj (
            [("allowPrivilegeEscalation", Val.bool sec_ctx.allow_privilege_escalation),
             ("readOnlyRootFilesystem", Val.bool sec_ctx.read_only_root_filesystem)]
            ++ (if sec_ctx.capabilities_drop ≠ [] ∨ sec_ctx.capabilities_add ≠ [] then
                  [("capabilities", Val.obj (
                    (if sec_ctx.capabilities_drop ≠ [] then
                       [("drop", Val.arr (sec_ctx.capabilities_drop.map Val.str))]
                     else [])
                    ++ (if sec_ctx.capabilities_add ≠ [] then
                          [("add", Val.arr (sec_ctx.capabilities_add.map Val.str))]
                        else [])))]
                else [])))]
        | none => []))
  -- `ingress_type` is computed in the source but unused there.
  let _ingress_type := config.defaults.get_ingress_type env
  let pod_spec := Val.obj (
    [("containers", Val.arr [container])]
    ++ (if app.volumes.isEmpty then []
        else [("volumes", Val.arr (app.volumes.map build_volume))])
    ++ (if pySome app.security.service_account then
          [("serviceAccountName", Val.str (app.security.service_account.getD ""))]
        else [])
    ++ (match app.security.pod_security_context with
        | some psc =>
          let pod_sec :=
            (if psc.run_as_non_root then [("runAsNonRoot", Val.bool true)] else [])
            ++ (match psc.run_as_user with
                | some u => [("runAsUser", Val.num u)]
                | none => [])
            ++ (match psc.run_as_group with
                | some g => [("runAsGroup", Val.num g)]
                | none => [])
            ++ (match psc.fs_group with
                | some f => [("fsGroup", Val.num f)]
                | none => [])
          if pod_sec.isEmpty then [] else [("securityContext", Val.obj pod_sec)]
        | none => [])
    ++ (if pySubstr "docker.pkg.dev" image then
          [("imagePullSecrets", Val.arr [Val.obj [("name", Val.str "artifact-registry")]])]
        else []))
  Val.obj
    [("apiVersion", Val.str "apps/v1"),
     ("kind", Val.str "Deployment"),
     ("metadata", Val.obj
       [("name", Val.str name),
        ("namespace", Val.str app.«namespace»),
        ("labels", Val.obj
          [("app", Val.str name), ("k3sapp.io/app", Val.str app.name)])]),
     ("spec", Val.obj
       [("replicas", Val.num replicas),
        ("selector", Val.obj [("matchLabels", Val.obj [("app", Val.str name)])]),
        ("template", Val.obj
          [("metadata", Val.obj
            [("labels", Val.obj
              [("app", Val.str name), ("k3sapp.io/app", Val.str app.name)])]),
           ("spec", pod_spec)])])]

/-- `generate_service`. -/
def generate_service (app : AppConfig) (_env : Environment) : Val :=
  let name := toK8sNameS app.name
  let primary_port := app.get_primary_port
  let ports :=
    if app.container.ports.isEmpty then
      [Val.obj
        [("name", Val.str "http"),
         ("port", Val.num primary_port.service_port),
         ("targetPort", Val.num primary_port.container_port),
         ("protocol", Val.str "TCP")]]
    else
      app.container.ports.map (fun p => Val.obj
        [("name", Val.str p.name),
         ("port", Val.num p.service_port),
         ("targetPort", Val.num p.container_port),
         ("protocol", Val.str p.protocol)])
  Val.obj
    [("apiVersion", Val.str "v1"),
     ("kind", Val.str "Service"),
     ("metadata", Val.obj
       [("name", Val.str name),
        ("namespace", Val.str app.«namespace»),
        ("labels", Val.obj
          [("app", Val.str name), ("k3sapp.io/app", Val.str app.name)])]),
     ("spec", Val.obj
       [("selector", Val.obj [("app", Val.str name)]),
        ("ports", Val.arr ports)])]

/-- `generate_httpscaledobject`. -/
def generate_httpscaledobject (app : AppConfig) (env : Environment)
    (_config : AppsYamlConfig) : Option Val :=
  let scaling := app.get_effective_scaling env
  if scaling.type ≠ ScalingType.KEDA_HTTP then none
  else
    let name := toK8sNameS app.name
    let primary_port := app.get_primary_port
    let routing_host := name ++ "." ++ app.«namespace»
    let path_pre := if app.ingress.enabled then app.ingress.path else "/"
    some (Val.obj
      [("apiVersion", Val.str "http.keda.sh/v1alpha1"),
       ("kind", Val.str "HTTPScaledObject"),
       ("metadata", Val.obj
         [("name", Val.str (name ++ "-http")),
          ("namespace", Val.str app.«namespace»),
          ("labels", Val.obj
            [("app", Val.str name), ("k3sapp.io/app", Val.str app.name)])]),
       ("spec", Val.obj
         [("hosts", Val.arr [Val.str routing_host]),
          ("pathPrefixes", Val.arr [Val.str path_pre]),
          ("scaleTargetRef", Val.obj
            [("name", Val.str name),
             ("kind", Val.str "Deployment"),
             ("apiVersion", Val.str "apps/v1"),
             ("service", Val.str name),
             ("port", Val.num primary_port.service_port)]),
          ("replicas", Val.obj
            [("min", Val.num scaling.min_instances),
             ("max", Val.num scaling.max_instances)]),
          ("scalingMetric", Val.obj
            [("requestRate", Val.obj
              [("granularity", Val.str "1s"),
               ("targetValue", Val.num scaling.target_pending_requests),
               ("window", Val.str "1m")])]),
          ("scaledownPeriod", Val.num scaling.cooldown_period)])])

/-- `generate_hpa`; `scaling.min_instances or 1` is Python `or` on
ints. -/
def generate_hpa (app : AppConfig) (env : Environment) : Option Val :=
  let scaling := app.get_effective_scaling env
  if scaling.type ≠ ScalingType.HPA then none
  else
    let name := toK8sNameS app.name
    let metrics :=
      (if scaling.target_cpu_percent ≠ 0 then
        [Val.obj
          [("type", Val.str "Resource"),
           ("resource", Val.obj
             [("name", Val.str "cpu"),
              ("target", Val.obj
                [("type", Val.str "Utilization"),
                 ("averageUtilization", Val.num scaling.target_cpu_percent)])])]]
       else [])
      ++ (if scaling.target_memory_percent ≠ 0 then
        [Val.obj
          [("type", Val.str "Resource"),
           ("resource", Val.obj
             [("name", Val.str "memory"),
              ("target", Val.obj
                [("type", Val.str "Utilization"),
                 ("averageUtilization", Val.num scaling.target_memory_percent)])])]]
       else [])
    some (Val.obj
      [("apiVersion", Val.str "autoscaling/v2"),
       ("kind", Val.str "HorizontalPodAutoscaler"),
       ("metadata", Val.obj
         [("name", Val.str name),
          ("namespace", Val.str app.«namespace»),
          ("labels", Val.obj
            [("app", Val.str name), ("k3sapp.io/app", Val.str app.name)])]),
       ("spec", Val.obj
         [("scaleTargetRef", Val.obj
           [("apiVersion", Val.str "apps/v1"),
            ("kind", Val.str "Deployment"),
            ("name", Val.str name)]),
          ("minReplicas", Val.num (pyOrInt scaling.min_instances 1)),
          ("maxReplicas", Val.num scaling.max_instances),
          ("metrics", Val.arr metrics),
          ("behavior", Val.obj
            [("scaleDown", Val.obj
              [("stabilizationWindowSeconds", Val.num scaling.scale_down_stabilization)]),
             ("scaleUp", Val.obj
              [("stabilizationWindowSeconds", Val.num scaling.scale_up_stabilization)])])])])

/-- `generate_keda_route_service`. -/
def generate_keda_route_service (app : AppConfig) (_env : Environment) : Option Val :=
  if !app.ingress.enabled then none
  else
    let name := toK8sNameS app.name
    some (Val.obj
      [("apiVersion", Val.str "v1"),
       ("kind", Val.str "Service"),
       ("metadata", Val.obj
         [("name", Val.str ("keda-route-" ++ name)),
          ("namespace", Val.str app.«namespace»),
          ("labels", Val.obj
            [("app", Val.str name),
             ("k3sapp.io/app", Val.str app.name),
             ("k3sapp.io/component", Val.str "keda-route")])]),
       ("spec", Val.obj
         [("type", Val.str "ExternalName"),
          ("externalName",
            Val.str "keda-add-ons-http-interceptor-proxy.keda.svc.cluster.local"),
          ("ports", Val.arr
            [Val.obj
              [("port", Val.num 8080),
               ("targetPort", Val.num 8080),
               ("protocol", Val.str "TCP")]])])])

/-- Python `s.rstrip("/")`. -/
def pyRstripSlash (s : String) : String :=
  String.mk ((s.toList.reverse.dropWhile (· = '/')).reverse)

/-- `generate_haproxy_ingress`. -/
def generate_haproxy_ingress (app : AppConfig) (env : Environment)
    (_config : AppsYamlConfig) : Option Val :=
  if !app.ingress.enabled then none
  else
    let name := toK8sNameS app.name
    let routing_host := name ++ "." ++ app.«namespace»
    let config_backend :=
      "http-request set-header Host " ++ routing_host ++ "\n"
      ++ (if app.ingress.stripPrefix ∧ app.ingress.path ≠ "/" then
            let path := pyRstripSlash app.ingress.path
            "http-request set-path %[path,regsub(^" ++ path
              ++ "/,/),regsub(^" ++ path ++ "$,/)]\n"
          else "")
    let annotations :=
      [("haproxy-ingress.github.io/timeout-connect", app.ingress.timeouts.connect),
       ("haproxy-ingress.github.io/timeout-server", app.ingress.timeouts.server),
       ("haproxy-ingress.github.io/timeout-client", app.ingress.timeouts.client),
       ("haproxy-ingress.github.io/timeout-queue", app.ingress.timeouts.queue),
       ("haproxy-ingress.github.io/retry-on",
         "conn-failure,empty-response,response-timeout"),
       ("haproxy-ingress.github.io/retries", "3"),
       ("haproxy-ingress.github.io/config-backend", config_backend)]
    let annotations :=
      match app.get_env_override env with
      | some ov =>
        ov.ingress_annotations.foldl (fun acc kv => dictInsert acc kv.1 kv.2) annotations
      | none => annotations
    let annotations :=
      app.ingress.annotations.foldl (fun acc kv => dictInsert acc kv.1 kv.2) annotations
    let base :=
      [("apiVersion", Val.str "networking.k8s.io/v1"),
       ("kind", Val.str "Ingress"),
       ("metadata", Val.obj
         [("name", Val.str (name ++ "-haproxy")),
          ("namespace", Val.str app.«namespace»),
          ("labels", Val.obj
            [("app", Val.str name),
             ("k3sapp.io/app", Val.str app.name),
             ("k3sapp.io/ingress", Val.str "haproxy")]),
          ("annotations", Val.obj (annotations.map (fun kv => (kv.1, Val.str kv.2))))]),
       ("spec", Val.obj (
         [("ingressClassName", Val.str "haproxy"),
          ("rules", Val.arr
            [Val.obj
              [("http", Val.obj
                [("paths", Val.arr
                  [Val.obj
                    [("path", Val.str app.ingress.path),
                     ("pathType", Val.str app.ingress.path_type.value),
                     ("backend", Val.obj
                       [("service", Val.obj
                         [("name", Val.str ("keda-route-" ++ name)),
                          ("port", Val.obj [("number", Val.num 8080)])])])]])])]])]
         ++ (match app.ingress.tls with
             | some tls =>
               if tls.enabled then
                 [("tls", Val.arr
                   [Val.obj
                     [("secretName",
                        match tls.secret with
                        | some sec => Val.str sec
                        | none => Val.null),
                      ("hosts", Val.arr
                        ((if tls.hosts.isEmpty then app.ingress.hosts else tls.hosts).map
                          Val.str))]])]
               else []
             | none => [])))]
    some (Val.obj base)

/-- `generate_traefik_ingress`. -/
def generate_traefik_ingress (app : AppConfig) (_env : Environment)
    (_config : AppsYamlConfig) : Option Val :=
  if !app.ingress.enabled then none
  else
    let name := toK8sNameS app.name
    let matchRule :=
      let m := "PathPrefix(`" ++ app.ingress.path ++ "`)"
      if app.ingress.hosts.isEmpty then m
      else
        let host_match :=
          String.intercalate " || "
            (app.ingress.hosts.map (fun h => "Host(`" ++ h ++ "`)"))
        "(" ++ host_match ++ ") && " ++ m
    some (Val.obj
      [("apiVersion", Val.str "traefik.io/v1alpha1"),
       ("kind", Val.str "IngressRoute"),
       ("metadata", Val.obj
         [("name", Val.str (name ++ "-routes")),
          ("namespace", Val.str app.«namespace»),
          ("labels", Val.obj
            [("app", Val.str name), ("k3sapp.io/app", Val.str app.name)])]),
       ("spec", Val.obj
         [("entryPoints", Val.arr [Val.str "web", Val.str "websecure"]),
          ("routes", Val.arr
            [Val.obj
              [("match", Val.str matchRule),
               ("kind", Val.str "Rule"),
               ("services", Val.arr
                 [Val.obj
                   [("name", Val.str "keda-interceptor-proxy"),
                    ("port", Val.num 8080)]]),
               ("middlewares", Val.arr
                 [Val.obj
                   [("name", Val.str (name ++ "-host-rewrite")),
                    ("namespace", Val.str app.«namespace»)]])]])])])

/-- `generate_traefik_middleware`. -/
def generate_traefik_middleware (app : AppConfig) (_env : Environment) : Option Val :=
  if !app.ingress.enabled then none
  else
    let name := toK8sNameS app.name
    let routing_host := name ++ "." ++ app.«namespace»
    some (Val.obj
      [("apiVersion", Val.str "traefik.io/v1alpha1"),
       ("kind", Val.str "Middleware"),
       ("metadata", Val.obj
         [("name", Val.str (name ++ "-host-rewrite")),
          ("namespace", Val.str app.«namespace»),
          ("labels", Val.obj
            [("app", Val.str name), ("k3sapp.io/app", Val.str app.name)])]),
       ("spec", Val.obj
         [("headers", Val.obj
           [("customRequestHeaders", Val.obj [("Host", Val.str routing_host)])])])])

/-- `generate_ingress`. -/
def generate_ingress (app : AppConfig) (env : Environment)
    (config : AppsYamlConfig) : List Val :=
  if !app.ingress.enabled then []
  else
    let ingress_type := config.defaults.get_ingress_type env
    if ingress_type == "haproxy" then
      optList (generate_keda_route_service app env)
        ++ optList (generate_haproxy_ingress app env config)
    else
      optList (generate_traefik_middleware app env)
        ++ optList (generate_traefik_ingress app env config)

/-- The NetworkPolicy ingress rule that always allows the KEDA
namespace (appended first by `generate_network_policy`). -/
def kedaIngressRule (port : Int) : Val :=
  Val.obj
    [("from", Val.arr
      [Val.obj
        [("namespaceSelector", Val.obj
          [("matchLabels", Val.obj
            [("kubernetes.io/metadata.name", Val.str "keda")])])]]),
     ("ports", Val.arr
       [Val.obj [("protocol", Val.str "TCP"), ("port", Val.num port)]])]

/-- `generate_network_policy`. -/
def generate_network_policy (app : AppConfig) (env : Environment)
    (config : AppsYamlConfig) : Option Val :=
  if !app.security.network_policy.enabled then none
  else
    let name := toK8sNameS app.name
    let primary_port := app.get_primary_port
    let _ingress_type := config.defaults.get_ingress_type env
    let ingress_rules :=
      [kedaIngressRule primary_port.container_port]
      ++ (match app.security.visibility with
          | .INTERNAL =>
            [Val.obj
              [("from", Val.arr [Val.obj [("namespaceSelector", Val.obj [])]]),
               ("ports", Val.arr
                 [Val.obj
                   [("protocol", Val.str "TCP"),
                    ("port", Val.num primary_port.container_port)]])]]
          | .PRIVATE =>
            [Val.obj
              [("from", Val.arr [Val.obj [("podSelector", Val.obj [])]]),
               ("ports", Val.arr
                 [Val.obj
                   [("protocol", Val.str "TCP"),
                    ("port", Val.num primary_port.container_port)]])]]
          | .RESTRICTED => [])
      ++ app.security.network_policy.allow_from.foldl
          (fun acc rule =>
            let from_spec :=
              (if pySome rule.«namespace» then
                 [("namespaceSelector", Val.obj
                   [("matchLabels", Val.obj
                     [("kubernetes.io/metadata.name",
                       Val.str (rule.«namespace».getD ""))])])]
               else [])
              ++ (if rule.pod_labels.isEmpty then []
                  else [("podSelector", Val.obj
                    [("matchLabels", Val.obj
                      (rule.pod_labels.map (fun p => (p.1, Val.str p.2))))])])
              ++ (if pySome rule.cidr then
                    [("ipBlock", Val.obj [("cidr", Val.str (rule.cidr.getD ""))])]
                  else [])
            if from_spec.isEmpty then acc
            else acc ++ [Val.obj
              [("from", Val.arr [Val.obj from_spec]),
               ("ports", Val.arr
                 [Val.obj
                   [("protocol", Val.str "TCP"),
                    ("port", Val.num primary_port.container_port)]])]])
          []
    let policy_types :=
      if app.security.network_policy.allow_to.isEmpty then [Val.str "Ingress"]
      else [Val.str "Ingress", Val.str "Egress"]
    let egress_rules :=
      if app.security.network_policy.allow_to.isEmpty then []
      else
        [Val.obj
          [("to", Val.arr
            [Val.obj
              [("namespaceSelector", Val.obj []),
               ("podSelector", Val.obj
                 [("matchLabels", Val.obj [("k8s-app", Val.str "kube-dns")])])]]),
           ("ports", Val.arr
             [Val.obj [("protocol", Val.str "UDP"), ("port", Val.num 53)],
              Val.obj [("protocol", Val.str "TCP"), ("port", Val.num 53)]])]]
        ++ app.security.network_policy.allow_to.foldl
            (fun acc rule =>
              let to_spec :=
                (if pySome rule.«namespace» then
                   [("namespaceSelector", Val.obj
                     [("matchLabels", Val.obj
                       [("kubernetes.io/metadata.name",
                         Val.str (rule.«namespace».getD ""))])])]
                 else [])
                ++ (if rule.pod_labels.isEmpty then []
                    else [("podSelector", Val.obj
                      [("matchLabels", Val.obj
                        (rule.pod_labels.map (fun p => (p.1, Val.str p.2))))])])
                ++ (if pySome rule.cidr then
                      [("ipBlock", Val.obj [("cidr", Val.str (rule.cidr.getD ""))])]
                    else [])
              if to_spec.isEmpty then acc
              else acc ++ [Val.obj [("to", Val.arr [Val.obj to_spec])]])
            []
    some (Val.obj
      [("apiVersion", Val.str "networking.k8s.io/v1"),
       ("kind", Val.str "NetworkPolicy"),
       ("metadata", Val.obj
         [("name", Val.str (name ++ "-policy")),
          ("namespace", Val.str app.«namespace»),
          ("labels", Val.obj
            [("app", Val.str name),
             ("k3sapp.io/app", Val.str app.name),
             ("k3sapp.io/visibility", Val.str app.security.visibility.value)])]),
       ("spec", Val.obj (
         [("podSelector", Val.obj [("matchLabels", Val.obj [("app", Val.str name)])]),
          ("policyTypes", Val.arr policy_types),
          ("ingress", Val.arr ingress_rules)]
         ++ (if egress_rules.isEmpty then [] else [("egress", Val.arr egress_rules)])))])

/-- `generate_pdb`. -/
def generate_pdb (app : AppConfig) (env : Environment) : Option Val :=
  match app.get_env_override env with
  | none => none
  | some ov =>
    match ov.pod_disruption_budget with
    | none => none
    | some pdb =>
      if pdb.min_available = none ∧ pdb.max_unavailable = none then none
      else
        let name := toK8sNameS app.name
        let spec :=
          [("selector", Val.obj [("matchLabels", Val.obj [("app", Val.str name)])])]
          ++ (match pdb.min_available with
              | some mv => [("minAvailable", Val.num mv)]
              | none =>
                match pdb.max_unavailable with
                | some mu => [("maxUnavailable", Val.num mu)]
                | none => [])
        some (Val.obj
          [("apiVersion", Val.str "policy/v1"),
           ("kind", Val.str "PodDisruptionBudget"),
           ("metadata", Val.obj
             [("name", Val.str name),
              ("namespace", Val.str app.«namespace»),
              ("labels", Val.obj
                [("app", Val.str name), ("k3sapp.io/app", Val.str app.name)])]),
           ("spec", Val.obj spec)])

/-- `generate_service_account`. -/
def generate_service_account (app : AppConfig) (_env : Environment) : Option Val :=
  if !app.security.create_service_account then none
  else if !(pySome app.security.service_account) then none
  else
    some (Val.obj
      [("apiVersion", Val.str "v1"),
       ("kind", Val.str "ServiceAccount"),
       ("metadata", Val.obj (
         [("name", Val.str (app.security.service_account.getD "")),
          ("namespace", Val.str app.«namespace»),
          ("labels", Val.obj [("k3sapp.io/app", Val.str app.name)])]
         ++ (if app.security.service_account_annotations.isEmpty then []
             else [("annotations", Val.obj
               (app.security.service_account_annotations.map
                 (fun p => (p.1, Val.str p.2))))])))])

/-- `generate_pvc`. -/
def generate_pvc (vol : VolumeConfig) (ns : String) : Val :=
  Val.obj
    [("apiVersion", Val.str "v1"),
     ("kind", Val.str "PersistentVolumeClaim"),
     ("metadata", Val.obj
       [("name", Val.str vol.name), ("namespace", Val.str ns)]),
     ("spec", Val.obj
       [("accessModes", Val.arr (vol.access_modes.map Val.str)),
        ("storageClassName", Val.str (pyOrStr vol.storage_class "standard")),
        ("resources", Val.obj
          [("requests", Val.obj
            [("storage", Val.str (pyOrStr vol.size "1Gi"))])])])]

/-- `generate_trigger_authentication`. -/
def generate_trigger_authentication (app : AppConfig) (env : Environment) : Option Val :=
  let scaling := app.get_effective_scaling env
  if scaling.type ≠ ScalingType.KEDA_QUEUE then none
  else
    let name := toK8sNameS app.name
    some (Val.obj
      [("apiVersion", Val.str "keda.sh/v1alpha1"),
       ("kind", Val.str "TriggerAuthentication"),
       ("metadata", Val.obj
         [("name", Val.str (name ++ "-redis-auth")),
          ("namespace", Val.str app.«namespace»),
          ("labels", Val.obj
            [("app", Val.str name), ("k3sapp.io/app", Val.str app.name)])]),
       ("spec", Val.obj
         [("secretTargetRef", Val.arr
           [Val.obj
             [("parameter", Val.str "password"),
              ("name", Val.str "valkey-secret"),
              ("key", Val.str "password")]])])])

/-- `generate_keda_scaledobject_queue`. -/
def generate_keda_scaledobject_queue (app : AppConfig) (env : Environment) : Option Val :=
  let scaling := app.get_effective_scaling env
  if scaling.type ≠ ScalingType.KEDA_QUEUE then none
  else if !(pySome scaling.queue_name) then none
  else
    let name := toK8sNameS app.name
    some (Val.obj
      [("apiVersion", Val.str "keda.sh/v1alpha1"),
       ("kind", Val.str "ScaledObject"),
       ("metadata", Val.obj
         [("name", Val.str (name ++ "-queue")),
          ("namespace", Val.str app.«namespace»),
          ("labels", Val.obj
            [("app", Val.str name), ("k3sapp.io/app", Val.str app.name)])]),
       ("spec", Val.obj
         [("scaleTargetRef", Val.obj
           [("name", Val.str name), ("kind", Val.str "Deployment")]),
          ("pollingInterval", Val.num 15),
          ("cooldownPeriod", Val.num scaling.cooldown_period),
          ("minReplicaCount", Val.num scaling.min_instances),
          ("maxReplicaCount", Val.num scaling.max_instances),
          ("triggers", Val.arr
            [Val.obj
              [("type", Val.str "redis"),
               ("metadata", Val.obj
                 [("address", Val.str "valkey-master.valkey.svc.cluster.local:6379"),
                  ("listName", Val.str (scaling.queue_name.getD "")),
                  ("listLength", Val.str (toString scaling.queue_length)),
                  ("enableTLS", Val.str "false"),
                  ("databaseIndex", Val.str "0")]),
               ("authenticationRef", Val.obj
                 [("name", Val.str (name ++ "-redis-auth"))])]])])])

/-- `generate_keda_scaledobject_cron`. -/
def generate_keda_scaledobject_cron (app : AppConfig) (env : Environment) : Option Val :=
  let scaling := app.get_effective_scaling env
  if scaling.type ≠ ScalingType.KEDA_CRON then none
  else
    let name := toK8sNameS app.name
    let triggers :=
      if scaling.cron_schedules.isEmpty then
        [Val.obj
          [("type", Val.str "cron"),
           ("metadata", Val.obj
             [("timezone", Val.str "UTC"),
              ("start", Val.str "0 8 * * *"),
              ("end", Val.str "0 18 * * *"),
              ("desiredReplicas", Val.str (toString scaling.max_instances))])]]
      else
        scaling.cron_schedules.map (fun schedule => Val.obj
          [("type", Val.str "cron"),
           ("metadata", Val.obj
             [("timezone", Val.str schedule.timezone),
              ("start", Val.str schedule.start),
              ("end", Val.str schedule.«end»),
              ("desiredReplicas", Val.str (toString schedule.replicas))])])
    some (Val.obj
      [("apiVersion", Val.str "keda.sh/v1alpha1"),
       ("kind", Val.str "ScaledObject"),
       ("metadata", Val.obj
         [("name", Val.str (name ++ "-cron")),
          ("namespace", Val.str app.«namespace»),
          ("labels", Val.obj
            [("app", Val.str name), ("k3sapp.io/app", Val.str app.name)])]),
       ("spec", Val.obj
         [("scaleTargetRef", Val.obj
           [("name", Val.str name), ("kind", Val.str "Deployment")]),
          ("cooldownPeriod", Val.num scaling.cooldown_period),
          ("minReplicaCount", Val.num scaling.min_instances),
          ("maxReplicaCount", Val.num scaling.max_instances),
          ("triggers", Val.arr triggers)])])

/-- `generate_external_secret`. -/
def generate_external_secret (app : AppConfig) (env : Environment) : Option Val :=
  let secret_refs := app.get_secret_refs
  if secret_refs.isEmpty then none
  else if env = Environment.LOCAL then none
  else
    let name := toK8sNameS app.name
    let gcp_secrets := secret_refs.filter (fun kv => kv.2.provider = SecretProvider.GCP)
    if gcp_secrets.isEmpty then none
    else
      let data := gcp_secrets.map (fun kv =>
        Val.obj
          [("secretKey", Val.str kv.1),
           ("remoteRef", Val.obj (
             [("key", Val.str kv.2.secret)]
             ++ (if kv.2.version ≠ "latest" then
                   [("version", Val.str kv.2.version)]
                 else [])
             ++ (if pySome kv.2.key then
                   [("property", Val.str (kv.2.key.getD ""))]
                 else [])))])
      some (Val.obj
        [("apiVersion", Val.str "external-secrets.io/v1beta1"),
         ("kind", Val.str "ExternalSecret"),
         ("metadata", Val.obj
           [("name", Val.str (name ++ "-secrets")),
            ("namespace", Val.str app.«namespace»),
            ("labels", Val.obj
              [("app", Val.str name), ("k3sapp.io/app", Val.str app.name)])]),
         ("spec", Val.obj
           [("refreshInterval", Val.str "1h"),
            ("secretStoreRef", Val.obj
              [("kind", Val.str "ClusterSecretStore"),
               ("name", Val.str "gcp-secret-manager")]),
            ("target", Val.obj
              [("name", Val.str (name ++ "-secrets")),
               ("creationPolicy", Val.str "Owner")]),
            ("data", Val.arr data)])])

/-! ### `k3sapp/schema.py`: resolution helpers -/

/-- `schema.resolve_registry_url`. -/
def resolve_registry_url (app : AppConfig) (env : Environment)
    (config : AppsYamlConfig) : String :=
  let registry := config.defaults.get_registry env
  if registry == "" then app.name ++ ":latest"
  else registry ++ "/" ++ app.name ++ ":latest"

/-- `schema.get_enabled_apps` (on an already-loaded config; the source
loads the file first). -/
def get_enabled_apps (env : Environment) (config : AppsYamlConfig) : List AppConfig :=
  config.apps.foldl
    (fun enabled app =>
      if !app.enabled then enabled
      else
        match app.get_env_override env with
        | some ov => if ov.enabled = some false then enabled else enabled ++ [app]
        | none => enabled ++ [app])
    []

/-- `generate_all_manifests`. -/
def generate_all_manifests (app : AppConfig) (env : Environment)
    (config : AppsYamlConfig) (procEnv : List (String × String)) : List Val :=
  let image := resolve_registry_url app env config
  let manifests := optList (generate_external_secret app env)
  let manifests := manifests
    ++ (if app.security.create_service_account then
          optList (generate_service_account app env)
        else [])
  let manifests := manifests
    ++ [generate_deployment app env image config procEnv, generate_service app env]
  let scaling := app.get_effective_scaling env
  let manifests := manifests
    ++ (match scaling.type with
        | .KEDA_HTTP => optList (generate_httpscaledobject app env config)
        | .HPA => optList (generate_hpa app env)
        | .KEDA_QUEUE =>
          optList (generate_trigger_authentication app env)
            ++ optList (generate_keda_scaledobject_queue app env)
        | .KEDA_CRON => optList (generate_keda_scaledobject_cron app env)
        | .NONE => [])
  let manifests := manifests ++ generate_ingress app env config
  let manifests := manifests ++ optList (generate_network_policy app env config)
  let manifests := manifests ++ optList (generate_pdb app env)
  let manifests := manifests
    ++ (app.volumes.filter (fun v => v.type = VolumeType.PVC)).map
         (fun v => generate_pvc v app.«namespace»)
  manifests

end K3sApp

namespace K3sCompose

/-! ### `k3scompose/types.py`: the compose data model -/

inductive Environment where
  | LOCAL
  | DEV
  | GCP
deriving DecidableEq

inductive RestartPolicy where
  | ALWAYS
  | ON_FAILURE
  | UNLESS_STOPPED
  | NO
deriving DecidableEq

structure PortMapping where
  host_port : Option Int
  container_port : Int
  protocol : String := "TCP"

structure VolumeMount where
  source : String
  target : String
  read_only : Bool := false
  type : String := "bind"

structure HealthCheck where
  test : List String
  interval : String := "30s"
  timeout : String := "30s"
  retries : Int := 3
  start_period : String := "0s"

structure ResourceLimits where
  cpus : Option String := none
  memory : Option String := none

structure DeployConfig where
  replicas : Int := 1
  limits : Option ResourceLimits := none
  reservations : Option ResourceLimits := none
  restart_policy : RestartPolicy := .ALWAYS

/-- `ComposeService`; `build` is a `Dict[str, Any]` in the source, of
which the generators only use truthiness (and the parser stores at
least a `context` key when present), embedded as a string dict. -/
structure ComposeService where
  name : String
  image : Option String := none
  build : Option (List (String × String)) := none
  command : Option (List String) := none
  entrypoint : Option (List String) := none
  environment : List (String × String) := []
  env_file : List String := []
  ports : List PortMapping := []
  volumes : List VolumeMount := []
  depends_on : List String := []
  healthcheck : Option HealthCheck := none
  deploy : DeployConfig := {}
  labels : List (String × String) := []
  networks : List String := []
  working_dir : Option String := none
  user : Option String := none
  restart : RestartPolicy := .ALWAYS

structure ComposeVolume where
  name : String
  driver : String := "local"
  driver_opts : List (String × String) := []
  external : Bool := false

structure ComposeProject where
  name : String
  path : String
  services : List ComposeService := []
  volumes : List (String × ComposeVolume) := []
  networks : List String := []

structure ComposeOverrides where
  «namespace» : String := "apps"
  enabled : Bool := true
  ingress_path : Option String := none
  replicas : Option Int := none
  resources : Option (List (String × String)) := none
  scaling : Option (List (String × String)) := none
  environment : List (String × String) := []

/-- Modelled from the spec: `k3scompose/generators.py` imports
`SecretProvider`, `SecretRef`, `NetworkPolicyConfig`, `SecurityConfig`
(and `EgressRule`) from `k3scompose/types.py`, but those definitions
are missing from the source tree.  They are modelled here after the
spec's data model (§3: per-entry security configuration with network
policy and service-account settings, "repeated, with variations,
across the four tools" — the `k3sapp` shapes). -/
inductive SecretProvider where
  | GCP
  | AWS
  | VAULT
  | AZURE
deriving DecidableEq

/-- Modelled from the spec: see `SecretProvider` above. -/
structure SecretRef where
  secret : String
  provider : SecretProvider := .GCP
  version : String := "latest"
  key : Option String := none

/-- Modelled from the spec: see `SecretProvider` above. -/
structure NetworkPolicyRule where
  «namespace» : Option String := none
  pod_labels : List (String × String) := []
  cidr : Option String := none

/-- Modelled from the spec: see `SecretProvider` above. -/
structure NetworkPolicyConfig where
  enabled : Bool := true
  allow_from : List NetworkPolicyRule := []
  allow_to : List NetworkPolicyRule := []

/-- Modelled from the spec: see `SecretProvider` above. -/
structure SecurityConfig where
  network_policy : NetworkPolicyConfig := {}
  service_account : Option String := none
  create_service_account : Bool := false
  service_account_annotations : List (String × String) := []

/-- `ComposeConfig`; the `security` field backs the (source-missing)
`get_effective_security`, see `SecretProvider` above. -/
structure ComposeConfig where
  name : String
  path : String
  file : String := "docker-compose.yaml"
  «namespace» : String := "apps"
  enabled : Bool := true
  «local» : Option ComposeOverrides := none
  dev : Option ComposeOverrides := none
  gcp : Option ComposeOverrides := none
  security : SecurityConfig := {}

/-- `ComposeConfig.get_env_override`. -/
def ComposeConfig.get_env_override (c : ComposeConfig) : Environment → Option ComposeOverrides
  | .LOCAL => c.«local»
  | .DEV => c.dev
  | .GCP => c.gcp

/-- `ComposeConfig.get_effective_namespace`. -/
def ComposeConfig.get_effective_namespace (c : ComposeConfig) (env : Environment) : String :=
  match c.get_env_override env with
  | some ov => if ov.«namespace» == "" then c.«namespace» else ov.«namespace»
  | none => c.«namespace»

/-- `ComposeConfig.is_enabled`. -/
def ComposeConfig.is_enabled (c : ComposeConfig) (env : Environment) : Bool :=
  if !c.enabled then false
  else
    match c.get_env_override env with
    | some ov => if !ov.enabled then false else true
    | none => true

/-- Modelled from the spec: `ComposeConfig.get_effective_security` is
called by the generators but missing from the source tree.
`ComposeOverrides` carries no security field, so per the spec's
override-resolution contract (§4.2: an override replaces a field only
when it explicitly sets it) the effective security is the configured
one. -/
def ComposeConfig.get_effective_security (c : ComposeConfig) (_env : Environment) :
    SecurityConfig :=
  c.security

/-! ### `k3scompose/generators.py`: the compose manifest generators -/

/-- `_to_k8s_name` on `String`. -/
def toK8sNameS (s : String) : String :=
  String.mk (toK8sName s.toList)

/-- `_convert_memory` on `String`. -/
def convertMemoryS (s : String) : String :=
  String.mk (convertMemory s.toList)

/-- `_convert_cpu` on `String`. -/
def convertCpuS (s : String) : String :=
  String.mk (convertCpu s.toList)

/-- `_parse_duration` on `String`. -/
def parseDurationS (s : String) : Int :=
  parseDuration s.toList

/-- `_build_resources`: nested requests/limits dict (string values). -/
def build_resources (service : ComposeService) (overrides : Option ComposeOverrides) :
    List (String × List (String × String)) :=
  let resources : List (String × List (String × String)) := []
  let resources :=
    match service.deploy.limits with
    | some lim =>
      let limits :=
        (if pySome lim.memory then
           [("memory", convertMemoryS (lim.memory.getD ""))]
         else [])
        ++ (if pySome lim.cpus then [("cpu", convertCpuS (lim.cpus.getD ""))] else [])
      if limits.isEmpty then resources else resources ++ [("limits", limits)]
    | none => resources
  let resources :=
    match service.deploy.reservations with
    | some res =>
      let requests :=
        (if pySome res.memory then
           [("memory", convertMemoryS (res.memory.getD ""))]
         else [])
        ++ (if pySome res.cpus then [("cpu", convertCpuS (res.cpus.getD ""))] else [])
      if requests.isEmpty then resources else resources ++ [("requests", requests)]
    | none => resources
  match overrides with
  | some ov =>
    match ov.resources with
    | some res =>
      let resources :=
        if (dictGet? res "memory").isSome ∨ (dictGet? res "cpu").isSome then
          let resources :=
            if (dictGet? resources "requests").isSome then resources
            else resources ++ [("requests", [])]
          let resources :=
            if pySome (dictGet? res "memory") then
              resources.map (fun p =>
                if p.1 == "requests" then
                  (p.1, dictInsert p.2 "memory" ((dictGet? res "memory").getD ""))
                else p)
            else resources
          if pySome (dictGet? res "cpu") then
            resources.map (fun p =>
              if p.1 == "requests" then
                (p.1, dictInsert p.2 "cpu" ((dictGet? res "cpu").getD ""))
              else p)
          else resources
        else resources
      if (dictGet? res "memory_limit").isSome ∨ (dictGet? res "cpu_limit").isSome then
        let resources :=
          if (dictGet? resources "limits").isSome then resources
          else resources ++ [("limits", [])]
        let resources :=
          if pySome (dictGet? res "memory_limit") then
            resources.map (fun p =>
              if p.1 == "limits" then
                (p.1, dictInsert p.2 "memory" ((dictGet? res "memory_limit").getD ""))
              else p)
          else if pySome (dictGet? res "memory") then
            resources.map (fun p =>
              if p.1 == "limits" then
                (p.1, dictInsert p.2 "memory" ((dictGet? res "memory").getD ""))
              else p)
          else resources
        if pySome (dictGet? res "cpu_limit") then
          resources.map (fun p =>
            if p.1 == "limits" then
              (p.1, dictInsert p.2 "cpu" ((dictGet? res "cpu_limit").getD ""))
            else p)
        else resources
      else resources
    | none => resources
  | none => resources

/-- `_build_probe` (docker-compose healthcheck to Kubernetes probe). -/
def build_probe (healthcheck : Option HealthCheck) : Option Val :=
  match healthcheck with
  | none => none
  | some hc =>
    match hc.test with
    | [] => none
    | t0 :: trest =>
      let base :=
        [("periodSeconds", Val.num (pyOrInt (parseDurationS hc.interval) 30)),
         ("timeoutSeconds", Val.num (pyOrInt (parseDurationS hc.timeout) 30)),
         ("failureThreshold", Val.num hc.retries)]
      let base :=
        if parseDurationS hc.start_period > 0 then
          base ++ [("initialDelaySeconds", Val.num (parseDurationS hc.start_period))]
        else base
      if t0 == "CMD" then
        some (Val.obj (base ++ [("exec", Val.obj
          [("command", Val.arr (trest.map Val.str))])]))
      else if t0 == "CMD-SHELL" then
        some (Val.obj (base ++ [("exec", Val.obj
          [("command", Val.arr
            ([Val.str "/bin/sh", Val.str "-c",
              Val.str (String.intercalate " " trest)]))])]))
      else if t0 == "NONE" then none
      else
        some (Val.obj (base ++ [("exec", Val.obj
          [("command", Val.arr ((t0 :: trest).map Val.str))])]))

/-- `_build_volumes` (pod volume specs, deduplicated by name). -/
def build_volumes (service : ComposeService) (_project : ComposeProject) : List Val :=
  let step := fun (acc : List Val × List String) (vol : VolumeMount) =>
    let (volumes, seen) := acc
    if vol.type == "volume" then
      let vol_name := toK8sNameS vol.source
      if seen.contains vol_name then acc
      else
        (volumes ++ [Val.obj
          [("name", Val.str vol_name),
           ("persistentVolumeClaim", Val.obj [("claimName", Val.str vol_name)])]],
         seen ++ [vol_name])
    else if vol.type == "bind" then
      let vol_name :=
        if toK8sNameS vol.source == "" then "bind-" ++ toString volumes.length
        else toK8sNameS vol.source
      if seen.contains vol_name then acc
      else
        (volumes ++ [Val.obj
          [("name", Val.str vol_name),
           ("hostPath", Val.obj
             [("path", Val.str vol.source),
              ("type", Val.str "DirectoryOrCreate")])]],
         seen ++ [vol_name])
    else if vol.type == "tmpfs" then
      let vol_name := "tmpfs-" ++ toString volumes.length
      (volumes ++ [Val.obj
        [("name", Val.str vol_name),
         ("emptyDir", Val.obj [("medium", Val.str "Memory")])]],
       seen)
    else acc
  (service.volumes.foldl step ([], [])).1

/-- `generate_deployment` for a compose service; raises (`Except.error`)
when the service declares neither `image` nor `build`. -/
def generate_deployment (service : ComposeService) (project : ComposeProject)
    (ns : String) (registry : Option String) (overrides : Option ComposeOverrides) :
    Except String Val :=
  let name := toK8sNameS service.name
  let project_name := toK8sNameS project.name
  let image? : Except String String :=
    if pySome service.image then .ok (service.image.getD "")
    else if (match service.build with
             | some b => !b.isEmpty
             | none => false) then
      .ok (match registry with
           | some r =>
             if r == "" then project_name ++ "-" ++ name ++ ":latest"
             else r ++ "/" ++ project_name ++ "-" ++ name ++ ":latest"
           | none => project_name ++ "-" ++ name ++ ":latest")
    else .error ("Service " ++ service.name ++ " has no image or build context")
  match image? with
  | .error e => .error e
  | .ok image =>
    let replicas :=
      match overrides with
      | some ov =>
        match ov.replicas with
        | some r => if r == 0 then service.deploy.replicas else r
        | none => service.deploy.replicas
      | none => service.deploy.replicas
    let env_vars : List (String × String) :=
      let base := service.environment
      match overrides with
      | some ov =>
        if ov.environment.isEmpty then base
        else
          ov.environment.foldl
            (fun acc kv => (acc.filter (fun e => e.1 ≠ kv.1)) ++ [kv])
            base
      | none => base
    let resources := build_resources service overrides
    let volume_mounts :=
      (service.volumes.foldl
        (fun (acc : List Val) vol =>
          if vol.type == "volume" ∨ vol.type == "bind" then
            acc ++ [Val.obj (
              [("name", Val.str
                 (if vol.source == "" then "vol-" ++ toString acc.length
                  else toK8sNameS vol.source)),
               ("mountPath", Val.str vol.target)]
              ++ (if vol.read_only then [("readOnly", Val.bool true)] else []))]
          else acc)
        [])
    let security_context :=
      match service.user with
      | some user =>
        let user_parts := user.splitOn ":"
        let uidPart :=
          match user_parts with
          | p0 :: _ =>
            if p0 ≠ "" ∧ p0.toList.all Char.isDigit then
              [("runAsUser", Val.num (Int.ofNat (PyStr.digitsToNat p0.toList)))]
            else []
          | [] => []
        let gidPart :=
          match user_parts with
          | _ :: p1 :: _ =>
            if p1 ≠ "" ∧ p1.toList.all Char.isDigit then
              [("runAsGroup", Val.num (Int.ofNat (PyStr.digitsToNat p1.toList)))]
            else []
          | _ => []
        uidPart ++ gidPart
      | none => []
    let container := Val.obj (
      [("name", Val.str name), ("image", Val.str image)]
      ++ (if service.ports.isEmpty then []
          else [("ports", Val.arr (service.ports.map (fun p => Val.obj
            [("containerPort", Val.num p.container_port),
             ("protocol", Val.str p.protocol)])))])
      ++ (if pySomeList service.entrypoint then
            [("command", Val.arr ((service.entrypoint.getD []).map Val.str))]
          else [])
      ++ (if pySomeList service.command then
            [("args", Val.arr ((service.command.getD []).map Val.str))]
          else [])
      ++ (if pySome service.working_dir then
            [("workingDir", Val.str (service.working_dir.getD ""))]
          else [])
      ++ (if env_vars.isEmpty then []
          else [("env", Val.arr (env_vars.map (fun kv => Val.obj
            [("name", Val.str kv.1), ("value", Val.str kv.2)])))])
      ++ (if resources.isEmpty then []
          else [("resources", Val.obj (resources.map (fun p =>
            (p.1, Val.obj (p.2.map (fun q => (q.1, Val.str q.2)))))))])
      ++ (match build_probe service.healthcheck with
          | some probe => [("livenessProbe", probe), ("readinessProbe", probe)]
          | none => [])
      ++ (if volume_mounts.isEmpty then []
          else [("volumeMounts", Val.arr volume_mounts)])
      ++ (if security_context.isEmpty then []
          else [("securityContext", Val.obj security_context)]))
    let volumes := build_volumes service project
    let pod_spec := Val.obj (
      [("containers", Val.arr [container])]
      ++ (if volumes.isEmpty then [] else [("volumes", Val.arr volumes)]))
    .ok (Val.obj
      [("apiVersion", Val.str "apps/v1"),
       ("kind", Val.str "Deployment"),
       ("metadata", Val.obj
         [("name", Val.str name),
          ("namespace", Val.str ns),
          ("labels", Val.obj
            [("app", Val.str name),
             ("k3scompose.io/project", Val.str project_name),
             ("k3scompose.io/service", Val.str service.name)])]),
       ("spec", Val.obj
         [("replicas", Val.num replicas),
          ("selector", Val.obj [("matchLabels", Val.obj [("app", Val.str name)])]),
          ("template", Val.obj
            [("metadata", Val.obj
              [("labels", Val.obj
                [("app", Val.str name),
                 ("k3scompose.io/project", Val.str project_name),
                 ("k3scompose.io/service", Val.str service.name)])]),
             ("spec", pod_spec)])])])

/-- `generate_service` for a compose service. -/
def generate_service (service : ComposeService) (project : ComposeProject)
    (ns : String) : Option Val :=
  if service.ports.isEmpty then none
  else
    let name := toK8sNameS service.name
    let project_name := toK8sNameS project.name
    let ports := (service.ports.enum).map (fun ip =>
      let port_name := if ip.1 = 0 then "http" else "port-" ++ toString ip.1
      Val.obj
        [("name", Val.str port_name),
         ("port", Val.num
           (match ip.2.host_port with
            | some h => if h == 0 then ip.2.container_port else h
            | none => ip.2.container_port)),
         ("targetPort", Val.num ip.2.container_port),
         ("protocol", Val.str ip.2.protocol)])
    some (Val.obj
      [("apiVersion", Val.str "v1"),
       ("kind", Val.str "Service"),
       ("metadata", Val.obj
         [("name", Val.str name),
          ("namespace", Val.str ns),
          ("labels", Val.obj
            [("app", Val.str name),
             ("k3scompose.io/project", Val.str project_name),
             ("k3scompose.io/service", Val.str service.name)])]),
       ("spec", Val.obj
         [("selector", Val.obj [("app", Val.str name)]),
          ("ports", Val.arr ports)])])

/-- `generate_pvc` for a named compose volume. -/
def generate_pvc (volume : ComposeVolume) (ns : String) (project_name : String)
    (storage_class : Option String) (size : String) : Val :=
  let name := toK8sNameS volume.name
  Val.obj (
    [("apiVersion", Val.str "v1"),
     ("kind", Val.str "PersistentVolumeClaim"),
     ("metadata", Val.obj
       [("name", Val.str name),
        ("namespace", Val.str ns),
        ("labels", Val.obj
          [("k3scompose.io/project", Val.str project_name),
           ("k3scompose.io/volume", Val.str volume.name)])]),
     ("spec", Val.obj (
       [("accessModes", Val.arr [Val.str "ReadWriteOnce"]),
        ("resources", Val.obj
          [("requests", Val.obj [("storage", Val.str size)])])]
       ++ (if pySome storage_class then
             [("storageClassName", Val.str (storage_class.getD ""))]
           else [])))])

/-- `generate_service_account` for a compose project. -/
def generate_service_account (config : ComposeConfig) (env : Environment) : Option Val :=
  let security := config.get_effective_security env
  if !security.create_service_account then none
  else if !(pySome security.service_account) then none
  else
    let ns := config.get_effective_namespace env
    let project_name := toK8sNameS config.name
    some (Val.obj
      [("apiVersion", Val.str "v1"),
       ("kind", Val.str "ServiceAccount"),
       ("metadata", Val.obj (
         [("name", Val.str (security.service_account.getD "")),
          ("namespace", Val.str ns),
          ("labels", Val.obj [("k3scompose.io/project", Val.str project_name)])]
         ++ (if security.service_account_annotations.isEmpty then []
             else [("annotations", Val.obj
               (security.service_account_annotations.map
                 (fun p => (p.1, Val.str p.2))))])))])

/-- `generate_network_policy` for a compose service. -/
def generate_network_policy (service : ComposeService) (project : ComposeProject)
    (config : ComposeConfig) (env : Environment) : Option Val :=
  let security := config.get_effective_security env
  if !security.network_policy.enabled then none
  else
    let ns := config.get_effective_namespace env
    let name := toK8sNameS service.name
    let project_name := toK8sNameS project.name
    let primary_port :=
      match service.ports with
      | p :: _ => p.container_port
      | [] => 80
    let ingress_rules :=
      [Val.obj
        [("from", Val.arr [Val.obj [("podSelector", Val.obj [])]]),
         ("ports", Val.arr
           [Val.obj [("protocol", Val.str "TCP"), ("port", Val.num primary_port)]])]]
    let egress_rules :=
      [Val.obj
        [("to", Val.arr
          [Val.obj
            [("namespaceSelector", Val.obj []),
             ("podSelector", Val.obj
               [("matchLabels", Val.obj [("k8s-app", Val.str "kube-dns")])])]]),
         ("ports", Val.arr
           [Val.obj [("protocol", Val.str "UDP"), ("port", Val.num 53)],
            Val.obj [("protocol", Val.str "TCP"), ("port", Val.num 53)]])]]
      ++ (if security.network_policy.allow_to.isEmpty then []
          else security.network_policy.allow_to.foldl
            (fun acc rule =>
              let to_spec :=
                (if pySome rule.«namespace» then
                   [("namespaceSelector", Val.obj
                     [("matchLabels", Val.obj
                       [("kubernetes.io/metadata.name",
                         Val.str (rule.«namespace».getD ""))])])]
                 else [])
                ++ (if rule.pod_labels.isEmpty then []
                    else [("podSelector", Val.obj
                      [("matchLabels", Val.obj
                        (rule.pod_labels.map (fun p => (p.1, Val.str p.2))))])])
                ++ (if pySome rule.cidr then
                      [("ipBlock", Val.obj [("cidr", Val.str (rule.cidr.getD ""))])]
                    else [])
              if to_spec.isEmpty then acc
              else acc ++ [Val.obj [("to", Val.arr [Val.obj to_spec])]])
            [])
    let policy_types :=
      if security.network_policy.allow_to.isEmpty then [Val.str "Ingress"]
      else [Val.str "Ingress", Val.str "Egress"]
    some (Val.obj
      [("apiVersion", Val.str "networking.k8s.io/v1"),
       ("kind", Val.str "NetworkPolicy"),
       ("metadata", Val.obj
         [("name", Val.str (name ++ "-policy")),
          ("namespace", Val.str ns),
          ("labels", Val.obj
            [("app", Val.str name),
             ("k3scompose.io/project", Val.str project_name),
             ("k3scompose.io/service", Val.str service.name)])]),
       ("spec", Val.obj (
         [("podSelector", Val.obj [("matchLabels", Val.obj [("app", Val.str name)])]),
          ("policyTypes", Val.arr policy_types),
          ("ingress", Val.arr ingress_rules)]
         ++ (if security.network_policy.allow_to.isEmpty then []
             else [("egress", Val.arr egress_rules)])))])

/-- `generate_external_secret` for a compose project. -/
def generate_external_secret (config : ComposeConfig) (env : Environment)
    (secret_refs : List (String × SecretRef)) : Option Val :=
  if secret_refs.isEmpty then none
  else if env = Environment.LOCAL then none
  else
    let ns := config.get_effective_namespace env
    let name := toK8sNameS config.name
    let gcp_secrets := secret_refs.filter (fun kv => kv.2.provider = SecretProvider.GCP)
    if gcp_secrets.isEmpty then none
    else
      let data := gcp_secrets.map (fun kv =>
        Val.obj
          [("secretKey", Val.str kv.1),
           ("remoteRef", Val.obj (
             [("key", Val.str kv.2.secret)]
             ++ (if kv.2.version ≠ "latest" then
                   [("version", Val.str kv.2.version)]
                 else [])
             ++ (if pySome kv.2.key then
                   [("property", Val.str (kv.2.key.getD ""))]
                 else [])))])
      some (Val.obj
        [("apiVersion", Val.str "external-secrets.io/v1beta1"),
         ("kind", Val.str "ExternalSecret"),
         ("metadata", Val.obj
           [("name", Val.str (name ++ "-secrets")),
            ("namespace", Val.str ns),
            ("labels", Val.obj [("k3scompose.io/project", Val.str name)])]),
         ("spec", Val.obj
           [("refreshInterval", Val.str "1h"),
            ("secretStoreRef", Val.obj
              [("kind", Val.str "ClusterSecretStore"),
               ("name", Val.str "gcp-secret-manager")]),
            ("target", Val.obj
              [("name", Val.str (name ++ "-secrets")),
               ("creationPolicy", Val.str "Owner")]),
            ("data", Val.arr data)])])

/-- Apply a function at a key path inside nested `Val.obj`s (models a
Python nested-dict item assignment on an existing path). -/
def modAt : List String → (Val → Val) → Val → Val
  | [], f, v => f v
  | k :: ks, f, Val.obj l =>
    Val.obj (l.map (fun p => if p.1 == k then (p.1, modAt ks f p.2) else p))
  | _ :: _, _, v => v

/-- `deploy["spec"]["template"]["spec"]["serviceAccountName"] = sa`. -/
def setServiceAccountName (deploy : Val) (sa : String) : Val :=
  modAt ["spec", "template", "spec"]
    (fun v =>
      match v with
      | Val.obj l => Val.obj (dictInsert l "serviceAccountName" (Val.str sa))
      | other => other)
    deploy

/-- The `envFrom` append of `generate_all_manifests`:
`containers[0].get("envFrom", [])`, append the secret reference, and
store it back. -/
def appendSecretEnvFrom (deploy : Val) (secName : String) : Val :=
  modAt ["spec", "template", "spec", "containers"]
    (fun v =>
      match v with
      | Val.arr (c0 :: cs) =>
        let env_from :=
          match c0 with
          | Val.obj l =>
            match dictGet? l "envFrom" with
            | some (Val.arr efs) => efs
            | _ => []
          | _ => []
        let env_from := env_from
          ++ [Val.obj [("secretRef", Val.obj [("name", Val.str secName)])]]
        match c0 with
        | Val.obj l => Val.arr (Val.obj (dictInsert l "envFrom" (Val.arr env_from)) :: cs)
        | other => Val.arr (other :: cs)
      | other => other)
    deploy

/-- The per-service body of `generate_all_manifests`'s loop. -/
def genServiceManifests (project : ComposeProject) (config : ComposeConfig)
    (env : Environment) (registry : Option String)
    (secret_refs : Option (List (String × SecretRef))) (ns : String)
    (overrides : Option ComposeOverrides) (security : SecurityConfig) :
    List ComposeService → Except String (List Val)
  | [] => .ok []
  | service :: rest => do
    let deploy ← generate_deployment service project ns registry overrides
    let deploy :=
      if pySome security.service_account then
        setServiceAccountName deploy (security.service_account.getD "")
      else deploy
    let hasRefs : Bool :=
      match secret_refs with
      | some refs => !refs.isEmpty
      | none => false
    let deploy :=
      if hasRefs ∧ env ≠ Environment.LOCAL then
        appendSecretEnvFrom deploy (toK8sNameS config.name ++ "-secrets")
      else deploy
    let svc := generate_service service project ns
    let np :=
      if security.network_policy.enabled then
        generate_network_policy service project config env
      else none
    let restMs ← genServiceManifests project config env registry secret_refs ns
      overrides security rest
    .ok ([deploy] ++ optList svc ++ optList np ++ restMs)

/-- `generate_all_manifests` for a compose project; the `ValueError`
of `generate_deployment` propagates (`Except.error`). -/
def generate_all_manifests (project : ComposeProject) (config : ComposeConfig)
    (env : Environment) (registry : Option String)
    (secret_refs : Option (List (String × SecretRef))) :
    Except String (List Val) := do
  let ns := config.get_effective_namespace env
  let overrides := config.get_env_override env
  let project_name := toK8sNameS project.name
  let security := config.get_effective_security env
  let manifests := optList (generate_service_account config env)
  let manifests := manifests
    ++ (match secret_refs with
        | some refs =>
          if !refs.isEmpty then optList (generate_external_secret config env refs)
          else []
        | none => [])
  let manifests := manifests
    ++ (project.volumes.foldl
        (fun acc kv =>
          if !kv.2.external then acc ++ [generate_pvc kv.2 ns project_name none "1Gi"]
          else acc)
        [])
  let svcManifests ← genServiceManifests project config env registry secret_refs ns
    overrides security project.services
  .ok (manifests ++ svcManifests)

/-! ### `k3scompose/cli.py`: the `generate-all` batch loop -/

/-- One entry of a `generate-all` batch: the parsed apps.yaml compose
config and the outcome of `resolve_compose_project` for it (the file
read, an effect, is passed in as data). -/
structure BatchEntry where
  config : ComposeConfig
  resolved : Except String ComposeProject

/-- The loop of `cmd_generate_all`: a `FileNotFoundError` from
`resolve_compose_project` is reported and skipped (`continue`); any
exception out of `generate_all_manifests` is NOT caught there, so it
aborts the loop (outputs already written stay written). -/
def batchLoop (env : Environment) (registry : Option String) :
    List BatchEntry → List (String × List Val) × Option String
  | [] => ([], none)
  | e :: rest =>
    match e.resolved with
    | .error _ => batchLoop env registry rest
    | .ok project =>
      match generate_all_manifests project e.config env registry none with
      | .error msg => ([], some msg)
      | .ok ms =>
        let (restOut, err) := batchLoop env registry rest
        ((e.config.name, ms) :: restOut, err)

/-- `cmd_generate_all`: filter the enabled configs, then run the loop.
The first component is the list of (project name, manifest list) pairs
written out; the second is the error that aborted the batch, if any. -/
def cmd_generate_all (entries : List BatchEntry) (env : Environment)
    (registry : Option String) : List (String × List Val) × Option String :=
  batchLoop env registry (entries.filter (fun e => e.config.is_enabled env))

end K3sCompose

namespace K3sFn

/-! ### `k3sfn`: function metadata and its NetworkPolicy generator -/

inductive TriggerType where
  | HTTP
  | QUEUE
  | SCHEDULE
  | EVENT
deriving DecidableEq

/-- `Visibility` of `k3sfn` (this variant has `PUBLIC`). -/
inductive Visibility where
  | PUBLIC
  | INTERNAL
  | PRIVATE
  | RESTRICTED
deriving DecidableEq

def Visibility.value : Visibility → String
  | .PUBLIC => "public"
  | .INTERNAL => "internal"
  | .PRIVATE => "private"
  | .RESTRICTED => "restricted"

structure AccessRule where
  namespaces : List String := []
  pod_labels : List (String × String) := []
  service_accounts : List String := []

/-- `FunctionMetadata`, restricted to the fields
`generate_network_policy` reads (`handler` is a Python callable and the
remaining fields are not consulted by the embedded function). -/
structure FunctionMetadata where
  name : String
  trigger_type : TriggerType
  visibility : Visibility := .PRIVATE
  access_rules : Option AccessRule := none

/-- The `keda_rule` of `k3sfn.cli.generate_network_policy`: allow the
KEDA namespace on port 8080. -/
def kedaFnRule : Val :=
  Val.obj
    [("from", Val.arr
      [Val.obj
        [("namespaceSelector", Val.obj
          [("matchLabels", Val.obj
            [("kubernetes.io/metadata.name", Val.str "keda")])])]]),
     ("ports", Val.arr
       [Val.obj [("protocol", Val.str "TCP"), ("port", Val.num 8080)]])]

/-- `k3sfn.cli.generate_network_policy`: visibility-based ingress
rules; the KEDA rule is appended for `PUBLIC` always and for
`PRIVATE`/`RESTRICTED` only when the trigger is HTTP. -/
def generate_network_policy (func : FunctionMetadata) (app_name : String)
    (ns : String) : Val :=
  let name := String.mk (PyStr.lower
    ((app_name ++ "-" ++ func.name).toList.map (fun c => if c = '_' then '-' else c)))
  let ingress : List Val :=
    match func.visibility with
    | .PUBLIC =>
      [Val.obj
        [("from", Val.arr
          [Val.obj
            [("namespaceSelector", Val.obj
              [("matchLabels", Val.obj
                [("kubernetes.io/metadata.name", Val.str "kube-system")])]),
             ("podSelector", Val.obj
               [("matchLabels", Val.obj
                 [("app.kubernetes.io/name", Val.str "traefik")])])]]),
         ("ports", Val.arr
           [Val.obj [("protocol", Val.str "TCP"), ("port", Val.num 8080)]])],
       kedaFnRule]
    | .INTERNAL =>
      [Val.obj
        [("from", Val.arr [Val.obj [("namespaceSelector", Val.obj [])]]),
         ("ports", Val.arr
           [Val.obj [("protocol", Val.str "TCP"), ("port", Val.num 8080)]])]]
    | .PRIVATE =>
      [Val.obj
        [("from", Val.arr [Val.obj [("podSelector", Val.obj [])]]),
         ("ports", Val.arr
           [Val.obj [("protocol", Val.str "TCP"), ("port", Val.num 8080)]])]]
      ++ (if func.trigger_type = TriggerType.HTTP then [kedaFnRule] else [])
    | .RESTRICTED =>
      (match func.access_rules with
       | some rules =>
         let from_rules :=
           rules.namespaces.map (fun nsName => Val.obj
             [("namespaceSelector", Val.obj
               [("matchLabels", Val.obj
                 [("kubernetes.io/metadata.name", Val.str nsName)])])])
           ++ (if rules.pod_labels.isEmpty then []
               else [Val.obj
                 [("podSelector", Val.obj
                   [("matchLabels", Val.obj
                     (rules.pod_labels.map (fun p => (p.1, Val.str p.2))))])]])
         if from_rules.isEmpty then []
         else
           [Val.obj
             [("from", Val.arr from_rules),
              ("ports", Val.arr
                [Val.obj [("protocol", Val.str "TCP"), ("port", Val.num 8080)]])]]
       | none => [])
      ++ (if func.trigger_type = TriggerType.HTTP then [kedaFnRule] else [])
  Val.obj
    [("apiVersion", Val.str "networking.k8s.io/v1"),
     ("kind", Val.str "NetworkPolicy"),
     ("metadata", Val.obj
       [("name", Val.str (name ++ "-ingress")),
        ("namespace", Val.str ns),
        ("labels", Val.obj
          [("app", Val.str name),
           ("k3sfn.io/app", Val.str app_name),
           ("k3sfn.io/function", Val.str func.name),
           ("k3sfn.io/visibility", Val.str func.visibility.value)])]),
     ("spec", Val.obj
       [("podSelector", Val.obj [("matchLabels", Val.obj [("app", Val.str name)])]),
        ("policyTypes", Val.arr [Val.str "Ingress"]),
        ("ingress", Val.arr ingress)])]

end K3sFn

/-! ### Observation helpers and concrete fixtures for the theorems -/

/-- The scaling-related manifest kinds of the specification (HPA, KEDA
ScaledObject, KEDA HTTPScaledObject). -/
def isScalingKind (k : String) : Bool :=
  k == "HorizontalPodAutoscaler" || k == "ScaledObject" || k == "HTTPScaledObject"

/-- The scaling-related kinds appearing in a manifest list, in order. -/
def scalingKinds (l : List Val) : List String :=
  (l.map kindOf).filter isScalingKind

/-- The specification's "enabled for environment E" predicate for an
app: the global flag is true and the override does not set `enabled`
to `False`. -/
def K3sApp.appEnabledFor (a : K3sApp.AppConfig) (e : K3sApp.Environment) : Bool :=
  a.enabled &&
    (match a.get_env_override e with
     | some ov => !(ov.enabled == some false)
     | none => true)

/-- Last-occurrence lookup (what a sequence of Python dict writes for
possibly repeated keys leaves behind). -/
def lastGet? {α : Type} (l : List (String × α)) (k : String) : Option α :=
  dictGet? l.reverse k

/-- Whether an `Except` is a success. -/
def isOkB {ε α : Type} : Except ε α → Bool
  | .ok _ => true
  | .error _ => false

/-- Fixture: a compose service with an image and 3 replicas. -/
def exampleComposeWeb : K3sCompose.ComposeService :=
  { name := "web", image := some "nginx:1", deploy := { replicas := 3 } }

/-- Fixture: a compose service declaring neither image nor build. -/
def exampleComposeBad : K3sCompose.ComposeService :=
  { name := "bad" }

/-- Fixture: a healthy compose project. -/
def exampleProjectOk : K3sCompose.ComposeProject :=
  { name := "p1", path := ".", services := [exampleComposeWeb] }

/-- Fixture: a compose project whose second service violates the
image-or-build invariant. -/
def exampleProjectBad : K3sCompose.ComposeProject :=
  { name := "p2", path := ".", services := [exampleComposeWeb, exampleComposeBad] }

/-- Fixture: apps.yaml compose entries. -/
def exampleCfg1 : K3sCompose.ComposeConfig := { name := "p1", path := "." }

/-- Fixture: apps.yaml compose entry for the failing project. -/
def exampleCfg2 : K3sCompose.ComposeConfig := { name := "p2", path := "." }

/-- Fixture: apps.yaml compose entry for a third, healthy project. -/
def exampleCfg3 : K3sCompose.ComposeConfig := { name := "p3", path := "." }

/-- Fixture: a `k3sfn` function with INTERNAL visibility and an HTTP
trigger. -/
def exampleInternalFn : K3sFn.FunctionMetadata :=
  { name := "fn1", trigger_type := .HTTP, visibility := .INTERNAL }

/-- Fixture: an app with scaling type NONE. -/
def exampleNoneApp : K3sApp.AppConfig :=
  { name := "plain_app", path := ".", scaling := { type := .NONE } }

/-- Fixture: an app whose `local` override sets `replicas: 7`. -/
def exampleOverrideApp : K3sApp.AppConfig :=
  { name := "ovr_app", path := ".", «local» := some { replicas := some 7 } }

/-- Fixture: an empty apps.yaml root config. -/
def exampleEmptyCfg : K3sApp.AppsYamlConfig := {}

/-- The `spec.replicas` entry of a generated compose Deployment, `none`
when generation failed. -/
def replicasOfResult (r : Except String Val) : Option Val :=
  match r with
  | .ok d => getPath ["spec", "replicas"] d
  | .error _ => none

/-- Fixture: an app with RESTRICTED visibility and no allow_from rules. -/
def exampleRestrictedApp : K3sApp.AppConfig :=
  { name := "r_app", path := ".",
    security := { visibility := .RESTRICTED } }

/-- Fixture: a `k3sfn` function with RESTRICTED visibility, an HTTP
trigger and no access rules. -/
def exampleRestrictedFn : K3sFn.FunctionMetadata :=
  { name := "fr", trigger_type := .HTTP, visibility := .RESTRICTED }

/-- Fixture: an app with HPA scaling (default `min_instances = 0`). -/
def exampleHpaApp : K3sApp.AppConfig :=
  { name := "hpa_app", path := ".", scaling := { type := .HPA } }

/-- Fixture: a `local` override replacing scaling wholesale and merging
environment variables. -/
def exampleEnvOverride : K3sApp.AppEnvOverride :=
  { scaling := some { type := .NONE },
    environment := [("A", "ovr"), ("C", "c")] }

/-- Fixture: an app with base environment variables and the override
above. -/
def exampleEnvApp : K3sApp.AppConfig :=
  { name := "env_app", path := ".",
    environment := [("A", { value := some "base" }), ("B", { value := some "b" })],
    «local» := some exampleEnvOverride }

/-- Fixture: a globally disabled app. -/
def exampleDisabledApp : K3sApp.AppConfig :=
  { name := "off_app", path := ".", enabled := false }

/-- Fixture: an apps.yaml config with one enabled, one disabled app. -/
def exampleAppsCfg : K3sApp.AppsYamlConfig :=
  { apps := [exampleNoneApp, exampleDisabledApp] }

/-! ## Helper lemmas -/

theorem dictGet?_dictInsert {α : Type} (m : List (String × α)) (k k' : String) (v : α) :
    dictGet? (dictInsert m k v) k' = if k = k' then some v else dictGet? m k' := by
  induction m with
  | nil => simp [dictInsert, dictGet?]
  | cons p rest ih =>
    obtain ⟨pk, pv⟩ := p
    by_cases h1 : pk = k
    · subst h1
      by_cases h2 : pk = k' <;> simp [dictInsert, dictGet?, h2]
    · by_cases h2 : pk = k'
      · subst h2
        have h1' : k ≠ pk := fun h => h1 h.symm
        simp [dictInsert, dictGet?, h1, h1']
      · simp [dictInsert, dictGet?, h1, h2, ih]

theorem singleton_isSuffixOf_append (a c : Char) (u : List Char) :
    [a].isSuffixOf (u ++ [c]) = (a == c) := by
  simp [List.isSuffixOf, List.isPrefixOf]

theorem pair_isSuffixOf_append (a b c : Char) (u : List Char) :
    [a, b].isSuffixOf (u ++ [c]) = ((b == c) && [a].isSuffixOf u) := by
  simp [List.isSuffixOf, List.isPrefixOf]

theorem toLower_eq_self {c : Char} (h : c.toNat < 65 ∨ 90 < c.toNat) : c.toLower = c := by
  simp only [Char.toLower]
  rw [if_neg]
  omega

theorem digit_toNat_lt {c : Char} (h : c.isDigit = true) : c.toNat < 65 := by
  simp [Char.isDigit, UInt32.le_def, BitVec.le_def] at h
  obtain ⟨h1, h2⟩ := h
  change c.val.toNat < 65
  simp [UInt32.toNat] at *
  omega

theorem toLower_digit {c : Char} (h : c.isDigit = true) : c.toLower = c :=
  toLower_eq_self (Or.inl (digit_toNat_lt h))

theorem lower_digits : ∀ {u : List Char}, u.all Char.isDigit = true →
    PyStr.lower u = u := by
  intro u
  induction u with
  | nil => intro _; rfl
  | cons c rest ih =>
    intro h
    rw [List.all_cons, Bool.and_eq_true] at h
    show List.map Char.toLower (c :: rest) = c :: rest
    rw [List.map_cons, toLower_digit h.1]
    have h2 := ih h.2
    unfold PyStr.lower at h2
    rw [h2]

theorem k8schar_toLower_fix {a : Char} (h : PyStr.isK8sNameChar a = true) :
    a.toLower = a := by
  apply toLower_eq_self
  simp [PyStr.isK8sNameChar, Char.le_def, UInt32.le_def, BitVec.le_def] at h
  rcases h with ⟨h1, h2⟩ | ⟨h1, h2⟩ | h1
  · right
    change 90 < a.val.toNat
    simp [UInt32.toNat] at *
    omega
  · left
    change a.val.toNat < 65
    simp [UInt32.toNat] at *
    omega
  · left
    decide

theorem mem_dropWhile {α : Type} {p : α → Bool} {c : α} :
    ∀ {l : List α}, c ∈ l.dropWhile p → c ∈ l := by
  intro l
  induction l with
  | nil => simp [List.dropWhile]
  | cons a rest ih =>
    intro h
    rw [List.dropWhile_cons] at h
    by_cases hp : p a = true
    · simp only [hp, if_true] at h
      exact List.mem_cons_of_mem _ (ih h)
    · simp only [hp] at h
      simpa using h

theorem mem_stripDashes {c : Char} {l : List Char} (h : c ∈ K3sCompose.stripDashes l) :
    c ∈ l := by
  unfold K3sCompose.stripDashes at h
  rw [List.mem_reverse] at h
  have h2 := mem_dropWhile h
  rw [List.mem_reverse] at h2
  exact mem_dropWhile h2

theorem mem_collapseDashes : ∀ {l : List Char} {c : Char},
    c ∈ K3sCompose.collapseDashes l → c ∈ l
  | [], c => by simp [K3sCompose.collapseDashes]
  | [a], c => by simp [K3sCompose.collapseDashes]
  | a :: b :: rest, c => by
    intro hx
    rw [K3sCompose.collapseDashes] at hx
    by_cases h : a = '-' && b = '-'
    · rw [if_pos h] at hx
      exact List.mem_cons_of_mem _ (mem_collapseDashes hx)
    · rw [if_neg h] at hx
      rcases List.mem_cons.mp hx with h1 | h2
      · exact List.mem_cons.mpr (Or.inl h1)
      · exact List.mem_cons_of_mem _ (mem_collapseDashes h2)

theorem convertMemory_append_case (u : List Char) (c : Char)
    (hlowu : PyStr.lower u = u) (hci : ('i' == c) = false) :
    K3sCompose.convertMemory (u ++ [c]) =
      (if 'g' == c.toLower then u ++ ['G', 'i']
       else if 'm' == c.toLower then u ++ ['M', 'i']
       else if 'k' == c.toLower then u ++ ['K', 'i']
       else u ++ [c.toLower]) := by
  have hlow2 : PyStr.lower (u ++ [c]) = u ++ [c.toLower] := by
    unfold PyStr.lower at hlowu ⊢
    rw [List.map_append, hlowu]
    rfl
  unfold K3sCompose.convertMemory
  rw [if_neg (by simp : ¬(u ++ [c] = []))]
  rw [pair_isSuffixOf_append, pair_isSuffixOf_append, pair_isSuffixOf_append, hci]
  simp only [Bool.false_and, Bool.or_self, Bool.false_or, if_false]
  simp only [hlow2, singleton_isSuffixOf_append, List.dropLast_concat]
  rw [if_neg (by decide)]

/-! ## Generator lemmas (k3sapp) -/

namespace K3sApp

theorem kindOf_generate_deployment (a : AppConfig) (e : Environment) (img : String)
    (cfg : AppsYamlConfig) (pe : List (String × String)) :
    kindOf (generate_deployment a e img cfg pe) = "Deployment" := rfl

theorem kindOf_generate_service (a : AppConfig) (e : Environment) :
    kindOf (generate_service a e) = "Service" := rfl

theorem replicas_of_generate_deployment (a : AppConfig) (e : Environment) (img : String)
    (cfg : AppsYamlConfig) (pe : List (String × String)) :
    getPath ["spec", "replicas"] (generate_deployment a e img cfg pe) =
      some (Val.num
        (match a.get_env_override e with
         | some ov =>
           match ov.replicas with
           | some r2 => r2
           | none =>
             if (a.get_effective_scaling e).type ≠ ScalingType.NONE then
               (a.get_effective_scaling e).min_instances
             else 1
         | none =>
           if (a.get_effective_scaling e).type ≠ ScalingType.NONE then
             (a.get_effective_scaling e).min_instances
           else 1)) := rfl


theorem kindOf_generate_httpscaledobject (a : AppConfig) (e : Environment)
    (cfg : AppsYamlConfig) :
    ∀ m, generate_httpscaledobject a e cfg = some m → kindOf m = "HTTPScaledObject" := by
  intro m h
  unfold generate_httpscaledobject at h
  try dsimp only at h
  repeat' split at h
  all_goals cases h
  all_goals rfl

theorem kindOf_generate_hpa (a : AppConfig) (e : Environment) :
    ∀ m, generate_hpa a e = some m → kindOf m = "HorizontalPodAutoscaler" := by
  intro m h
  unfold generate_hpa at h
  try dsimp only at h
  repeat' split at h
  all_goals cases h
  all_goals rfl

theorem kindOf_generate_keda_route_service (a : AppConfig) (e : Environment) :
    ∀ m, generate_keda_route_service a e = some m → kindOf m = "Service" := by
  intro m h
  unfold generate_keda_route_service at h
  try dsimp only at h
  repeat' split at h
  all_goals cases h
  all_goals rfl

theorem kindOf_generate_haproxy_ingress (a : AppConfig) (e : Environment)
    (cfg : AppsYamlConfig) :
    ∀ m, generate_haproxy_ingress a e cfg = some m → kindOf m = "Ingress" := by
  intro m h
  unfold generate_haproxy_ingress at h
  try dsimp only at h
  repeat' split at h
  all_goals cases h
  all_goals rfl

theorem kindOf_generate_traefik_ingress (a : AppConfig) (e : Environment)
    (cfg : AppsYamlConfig) :
    ∀ m, generate_traefik_ingress a e cfg = some m → kindOf m = "IngressRoute" := by
  intro m h
  unfold generate_traefik_ingress at h
  try dsimp only at h
  repeat' split at h
  all_goals cases h
  all_goals rfl

theorem kindOf_generate_traefik_middleware (a : AppConfig) (e : Environment) :
    ∀ m, generate_traefik_middleware a e = some m → kindOf m = "Middleware" := by
  intro m h
  unfold generate_traefik_middleware at h
  try dsimp only at h
  repeat' split at h
  all_goals cases h
  all_goals rfl

theorem kindOf_generate_network_policy (a : AppConfig) (e : Environment)
    (cfg : AppsYamlConfig) :
    ∀ m, generate_network_policy a e cfg = some m → kindOf m = "NetworkPolicy" := by
  intro m h
  unfold generate_network_policy at h
  try dsimp only at h
  repeat' split at h
  all_goals cases h
  all_goals rfl

theorem kindOf_generate_pdb (a : AppConfig) (e : Environment) :
    ∀ m, generate_pdb a e = some m → kindOf m = "PodDisruptionBudget" := by
  intro m h
  unfold generate_pdb at h
  try dsimp only at h
  repeat' split at h
  all_goals cases h
  all_goals rfl

theorem kindOf_generate_service_account (a : AppConfig) (e : Environment) :
    ∀ m, generate_service_account a e = some m → kindOf m = "ServiceAccount" := by
  intro m h
  unfold generate_service_account at h
  try dsimp only at h
  repeat' split at h
  all_goals cases h
  all_goals rfl

theorem kindOf_generate_trigger_authentication (a : AppConfig) (e : Environment) :
    ∀ m, generate_trigger_authentication a e = some m → kindOf m = "TriggerAuthentication" := by
  intro m h
  unfold generate_trigger_authentication at h
  try dsimp only at h
  repeat' split at h
  all_goals cases h
  all_goals rfl

theorem kindOf_generate_keda_scaledobject_queue (a : AppConfig) (e : Environment) :
    ∀ m, generate_keda_scaledobject_queue a e = some m → kindOf m = "ScaledObject" := by
  intro m h
  unfold generate_keda_scaledobject_queue at h
  try dsimp only at h
  repeat' split at h
  all_goals cases h
  all_goals rfl

theorem kindOf_generate_keda_scaledobject_cron (a : AppConfig) (e : Environment) :
    ∀ m, generate_keda_scaledobject_cron a e = some m → kindOf m = "ScaledObject" := by
  intro m h
  unfold generate_keda_scaledobject_cron at h
  try dsimp only at h
  repeat' split at h
  all_goals cases h
  all_goals rfl

theorem kindOf_generate_external_secret (a : AppConfig) (e : Environment) :
    ∀ m, generate_external_secret a e = some m → kindOf m = "ExternalSecret" := by
  intro m h
  unfold generate_external_secret at h
  try dsimp only at h
  repeat' split at h
  all_goals cases h
  all_goals rfl

theorem kindOf_generate_pvc (vol : VolumeConfig) (ns : String) :
    kindOf (generate_pvc vol ns) = "PersistentVolumeClaim" := rfl

theorem isSome_generate_httpscaledobject (a : AppConfig) (e : Environment)
    (cfg : AppsYamlConfig) (h : (a.get_effective_scaling e).type = ScalingType.KEDA_HTTP) :
    (generate_httpscaledobject a e cfg).isSome = true := by
  unfold generate_httpscaledobject
  rw [if_neg (by simp [h])]
  split <;> simp

theorem isSome_generate_hpa (a : AppConfig) (e : Environment)
    (h : (a.get_effective_scaling e).type = ScalingType.HPA) :
    (generate_hpa a e).isSome = true := by
  unfold generate_hpa
  rw [if_neg (by simp [h])]
  simp

theorem isSome_generate_keda_scaledobject_cron (a : AppConfig) (e : Environment)
    (h : (a.get_effective_scaling e).type = ScalingType.KEDA_CRON) :
    (generate_keda_scaledobject_cron a e).isSome = true := by
  unfold generate_keda_scaledobject_cron
  rw [if_neg (by simp [h])]
  split <;> simp

end K3sApp

/-! ## Claim theorems: name conversion (C2) -/

/-- C2 counterexample: the `k3sapp` variant of `_to_k8s_name` does not
replace invalid characters — on input `"a.b"` it returns `"a.b"`, which
contains `'.'` and is therefore not a valid Kubernetes resource name;
so the claim that the conversion used by the generators always yields a
valid name is false. -/
theorem k3sapp_to_k8s_name_not_always_valid :
    K3sApp.toK8sName ['a', '.', 'b'] = ['a', '.', 'b'] ∧
    isValidK8sName (K3sApp.toK8sName ['a', '.', 'b']) = false := by
  constructor <;> decide

/-- C2 (amended): both conversions are total and deterministic; the
`k3scompose` variant always returns a valid Kubernetes resource name
(at most 63 characters, all from `[a-z0-9-]`); the `k3sapp` variant
only lowercases and maps `_` to `-`, so its result is valid whenever
the input has at most 63 characters all drawn from lowercase
alphanumerics, hyphens and underscores. -/
theorem to_k8s_name_valid :
    (∀ name : List Char, isValidK8sName (K3sCompose.toK8sName name) = true)
    ∧ (∀ n₁ n₂ : List Char, n₁ = n₂ →
        K3sCompose.toK8sName n₁ = K3sCompose.toK8sName n₂ ∧
        K3sApp.toK8sName n₁ = K3sApp.toK8sName n₂)
    ∧ (∀ name : List Char, name.length ≤ 63 →
        (∀ c ∈ name, PyStr.isK8sNameChar c = true ∨ c = '_') →
        isValidK8sName (K3sApp.toK8sName name) = true) := by
  refine ⟨?_, fun n₁ n₂ h => by rw [h]; exact ⟨rfl, rfl⟩, ?_⟩
  · intro name
    unfold K3sCompose.toK8sName isValidK8sName
    rw [Bool.and_eq_true, List.all_eq_true]
    constructor
    · simp [List.length_take]
    · intro c hc
      have h1 : c ∈ K3sCompose.collapseDashes
          (K3sCompose.stripDashes
            ((PyStr.lower name).map
              (fun c => if PyStr.isK8sNameChar c then c else '-'))) :=
        List.mem_of_mem_take hc
      have h2 := mem_stripDashes (mem_collapseDashes h1)
      obtain ⟨a, _, ha⟩ := List.mem_map.mp h2
      by_cases hk : PyStr.isK8sNameChar a = true
      · rw [if_pos hk] at ha; rw [← ha]; exact hk
      · rw [if_neg hk] at ha; rw [← ha]; decide
  · intro name hlen hchars
    unfold K3sApp.toK8sName isValidK8sName
    rw [Bool.and_eq_true, List.all_eq_true]
    constructor
    · simp [PyStr.lower]
      omega
    · intro c hc
      unfold PyStr.lower at hc
      rw [List.map_map] at hc
      obtain ⟨a, ha, hc⟩ := List.mem_map.mp hc
      rcases hchars a ha with hk | hu
      · have hne : a ≠ '_' := by
          intro h
          rw [h] at hk
          simp [PyStr.isK8sNameChar] at hk
        simp only [Function.comp] at hc
        rw [if_neg hne, k8schar_toLower_fix hk] at hc
        rw [← hc]
        exact hk
      · subst hu
        rw [show (Char.toLower ∘ fun c => if c = '_' then '-' else c) '_' = '-'
          from by decide] at hc
        rw [← hc]
        decide

/-! ## Claim theorems: docker-compose unit conversion (C9) -/

/-- C9: `_convert_memory` maps docker suffixes `g`/`m`/`k`
(case-insensitively) on numeric values to the Kubernetes suffixes
`Gi`/`Mi`/`Ki`, passes already-Kubernetes-suffixed strings through
unchanged (`"512m" ↦ "512Mi"`, `"1g" ↦ "1Gi"`, `"256Mi" ↦ "256Mi"`),
and `_convert_cpu` maps `"0.5"` to `"500m"` and passes `m`-suffixed
strings through unchanged. -/
theorem compose_unit_conversion :
    (∀ s : List Char,
      (['M', 'i'].isSuffixOf s = true ∨ ['G', 'i'].isSuffixOf s = true
        ∨ ['K', 'i'].isSuffixOf s = true) →
      K3sCompose.convertMemory s = s)
    ∧ (∀ u : List Char, u.all Char.isDigit = true → u ≠ [] →
        (∀ c, c = 'g' ∨ c = 'G' →
          K3sCompose.convertMemory (u ++ [c]) = u ++ ['G', 'i'])
        ∧ (∀ c, c = 'm' ∨ c = 'M' →
          K3sCompose.convertMemory (u ++ [c]) = u ++ ['M', 'i'])
        ∧ (∀ c, c = 'k' ∨ c = 'K' →
          K3sCompose.convertMemory (u ++ [c]) = u ++ ['K', 'i']))
    ∧ K3sCompose.convertMemory "512m".toList = "512Mi".toList
    ∧ K3sCompose.convertMemory "1g".toList = "1Gi".toList
    ∧ K3sCompose.convertMemory "256Mi".toList = "256Mi".toList
    ∧ K3sCompose.convertCpu "0.5".toList = "500m".toList
    ∧ (∀ s : List Char, ['m'].isSuffixOf s = true → K3sCompose.convertCpu s = s) := by
  have hmem : ∀ u : List Char, u.all Char.isDigit = true → u ≠ [] →
      (∀ c, c = 'g' ∨ c = 'G' →
        K3sCompose.convertMemory (u ++ [c]) = u ++ ['G', 'i'])
      ∧ (∀ c, c = 'm' ∨ c = 'M' →
        K3sCompose.convertMemory (u ++ [c]) = u ++ ['M', 'i'])
      ∧ (∀ c, c = 'k' ∨ c = 'K' →
        K3sCompose.convertMemory (u ++ [c]) = u ++ ['K', 'i']) := by
    intro u hdig _
    have hlowu := lower_digits hdig
    refine ⟨?_, ?_, ?_⟩
    · intro c hcase
      rcases hcase with hc | hc
      · subst hc
        rw [convertMemory_append_case u 'g' hlowu (by decide)]
        rw [if_pos (by decide)]
      · subst hc
        rw [convertMemory_append_case u 'G' hlowu (by decide)]
        rw [if_pos (by decide)]
    · intro c hcase
      rcases hcase with hc | hc
      · subst hc
        rw [convertMemory_append_case u 'm' hlowu (by decide)]
        rw [if_neg (by decide), if_pos (by decide)]
      · subst hc
        rw [convertMemory_append_case u 'M' hlowu (by decide)]
        rw [if_neg (by decide), if_pos (by decide)]
    · intro c hcase
      rcases hcase with hc | hc
      · subst hc
        rw [convertMemory_append_case u 'k' hlowu (by decide)]
        rw [if_neg (by decide), if_neg (by decide), if_pos (by decide)]
      · subst hc
        rw [convertMemory_append_case u 'K' hlowu (by decide)]
        rw [if_neg (by decide), if_neg (by decide), if_pos (by decide)]
  refine ⟨?_, hmem, ?_, ?_, ?_, ?_, ?_⟩
  · intro s hsuf
    have hne : s ≠ [] := by
      intro h
      subst h
      rcases hsuf with h | h | h <;> simp [List.isSuffixOf] at h
    unfold K3sCompose.convertMemory
    rw [if_neg hne, if_pos]
    rcases hsuf with h | h | h <;> simp [h]
  · exact (hmem ['5', '1', '2'] (by decide) (by decide)).2.1 'm' (Or.inl rfl)
  · exact (hmem ['1'] (by decide) (by decide)).1 'g' (Or.inl rfl)
  · decide
  · set_option maxRecDepth 8000 in decide
  · intro s hsuf
    have hne : s ≠ [] := by
      intro h
      subst h
      simp [List.isSuffixOf] at hsuf
    unfold K3sCompose.convertCpu
    rw [if_neg hne, if_pos hsuf]

/-- Witness for `to_k8s_name_valid` at concrete inputs. -/
theorem to_k8s_name_valid_witness :
    isValidK8sName (K3sCompose.toK8sName ['M', 'y', '_', 'S', 'v', 'c']) = true ∧
    isValidK8sName (K3sApp.toK8sName ['a', 'b', '_', 'c']) = true :=
  ⟨to_k8s_name_valid.1 ['M', 'y', '_', 'S', 'v', 'c'],
   to_k8s_name_valid.2.2 ['a', 'b', '_', 'c'] (by decide) (by decide)⟩

/-- Witness for `compose_unit_conversion` at concrete inputs. -/
theorem compose_unit_conversion_witness :
    K3sCompose.convertMemory "900Mi".toList = "900Mi".toList ∧
    K3sCompose.convertMemory "42G".toList = "42Gi".toList ∧
    K3sCompose.convertCpu "75m".toList = "75m".toList :=
  ⟨compose_unit_conversion.1 "900Mi".toList (Or.inl (by decide)),
   (compose_unit_conversion.2.1 ['4', '2'] (by decide) (by decide)).1 'G' (Or.inr rfl),
   compose_unit_conversion.2.2.2.2.2.2 "75m".toList (by decide)⟩

/-! ## Claim theorems: determinism (C1), scaling dispatch (C4), replicas (C5) -/

theorem scalingKinds_append (l1 l2 : List Val) :
    scalingKinds (l1 ++ l2) = scalingKinds l1 ++ scalingKinds l2 := by
  simp [scalingKinds, List.filter_append]

theorem scalingKinds_optList_zero {o : Option Val} {k : String}
    (h : ∀ m, o = some m → kindOf m = k) (hk : isScalingKind k = false) :
    scalingKinds (optList o) = [] := by
  cases o with
  | none => rfl
  | some m =>
    have := h m rfl
    simp [optList, scalingKinds, this, hk]

theorem scalingKinds_optList_one {o : Option Val} {k : String}
    (h : ∀ m, o = some m → kindOf m = k) (hk : isScalingKind k = true) :
    scalingKinds (optList o) = if o.isSome then [k] else [] := by
  cases o with
  | none => rfl
  | some m =>
    have := h m rfl
    simp [optList, scalingKinds, this, hk]

namespace K3sApp

theorem scalingKinds_core (a : AppConfig) (e : Environment) (img : String)
    (cfg : AppsYamlConfig) (pe : List (String × String)) :
    scalingKinds [generate_deployment a e img cfg pe, generate_service a e] = [] := by
  simp [scalingKinds, kindOf_generate_deployment, kindOf_generate_service, isScalingKind]

theorem scalingKinds_ingress (a : AppConfig) (e : Environment) (cfg : AppsYamlConfig) :
    scalingKinds (generate_ingress a e cfg) = [] := by
  unfold generate_ingress
  split
  · rfl
  · dsimp only
    split
    · rw [scalingKinds_append,
        scalingKinds_optList_zero (kindOf_generate_keda_route_service a e) (by decide),
        scalingKinds_optList_zero (kindOf_generate_haproxy_ingress a e cfg) (by decide)]
      rfl
    · rw [scalingKinds_append,
        scalingKinds_optList_zero (kindOf_generate_traefik_middleware a e) (by decide),
        scalingKinds_optList_zero (kindOf_generate_traefik_ingress a e cfg) (by decide)]
      rfl

theorem scalingKinds_pvcs (vols : List VolumeConfig) (ns : String) :
    scalingKinds (vols.map (fun v => generate_pvc v ns)) = [] := by
  induction vols with
  | nil => rfl
  | cons v rest ih =>
    have : scalingKinds (List.map (fun v => generate_pvc v ns) (v :: rest)) =
        scalingKinds ([generate_pvc v ns] ++ List.map (fun v => generate_pvc v ns) rest) := rfl
    rw [this, scalingKinds_append, ih]
    simp [scalingKinds, kindOf_generate_pvc, isScalingKind]

theorem scalingKinds_generate_all (a : AppConfig) (e : Environment)
    (cfg : AppsYamlConfig) (pe : List (String × String)) :
    scalingKinds (generate_all_manifests a e cfg pe) =
      scalingKinds
        (match (a.get_effective_scaling e).type with
         | .KEDA_HTTP => optList (generate_httpscaledobject a e cfg)
         | .HPA => optList (generate_hpa a e)
         | .KEDA_QUEUE =>
           optList (generate_trigger_authentication a e)
             ++ optList (generate_keda_scaledobject_queue a e)
         | .KEDA_CRON => optList (generate_keda_scaledobject_cron a e)
         | .NONE => []) := by
  unfold generate_all_manifests
  dsimp only
  rw [scalingKinds_append, scalingKinds_append, scalingKinds_append, scalingKinds_append,
    scalingKinds_append, scalingKinds_append, scalingKinds_append]
  rw [scalingKinds_optList_zero (kindOf_generate_external_secret a e) (by decide)]
  rw [scalingKinds_optList_zero (kindOf_generate_network_policy a e cfg) (by decide)]
  rw [scalingKinds_optList_zero (kindOf_generate_pdb a e) (by decide)]
  rw [scalingKinds_ingress a e cfg]
  rw [scalingKinds_pvcs]
  have hsa : scalingKinds
      (if a.security.create_service_account = true then
        optList (generate_service_account a e)
      else []) = [] := by
    split
    · exact scalingKinds_optList_zero (kindOf_generate_service_account a e) (by decide)
    · rfl
  rw [hsa]
  have hcore := scalingKinds_core a e (resolve_registry_url a e cfg) cfg pe
  rw [show scalingKinds
      [generate_deployment a e (resolve_registry_url a e cfg) cfg pe, generate_service a e]
      = [] from hcore]
  simp

end K3sApp

/-- C4: for every effective configuration, `generate_all_manifests`
emits at most one scaling-related manifest (HPA / ScaledObject /
HTTPScaledObject), selected by `scaling.type`: none for NONE, an
HTTPScaledObject for KEDA_HTTP, a HorizontalPodAutoscaler for HPA, a
ScaledObject for KEDA_CRON, and at most one ScaledObject for
KEDA_QUEUE. -/
theorem scaling_manifest_dispatch (a : K3sApp.AppConfig) (e : K3sApp.Environment)
    (cfg : K3sApp.AppsYamlConfig) (pe : List (String × String)) :
    (scalingKinds (K3sApp.generate_all_manifests a e cfg pe)).length ≤ 1
    ∧ ((a.get_effective_scaling e).type = K3sApp.ScalingType.NONE →
        scalingKinds (K3sApp.generate_all_manifests a e cfg pe) = [])
    ∧ ((a.get_effective_scaling e).type = K3sApp.ScalingType.KEDA_HTTP →
        scalingKinds (K3sApp.generate_all_manifests a e cfg pe) = ["HTTPScaledObject"])
    ∧ ((a.get_effective_scaling e).type = K3sApp.ScalingType.HPA →
        scalingKinds (K3sApp.generate_all_manifests a e cfg pe) = ["HorizontalPodAutoscaler"])
    ∧ ((a.get_effective_scaling e).type = K3sApp.ScalingType.KEDA_CRON →
        scalingKinds (K3sApp.generate_all_manifests a e cfg pe) = ["ScaledObject"])
    ∧ ((a.get_effective_scaling e).type = K3sApp.ScalingType.KEDA_QUEUE →
        scalingKinds (K3sApp.generate_all_manifests a e cfg pe) = []
        ∨ scalingKinds (K3sApp.generate_all_manifests a e cfg pe) = ["ScaledObject"]) := by
  have hc := K3sApp.scalingKinds_generate_all a e cfg pe
  refine ⟨?_, ?_, ?_, ?_, ?_, ?_⟩
  · rw [hc]
    rcases h : (a.get_effective_scaling e).type
    · dsimp only
      rw [scalingKinds_optList_one (K3sApp.kindOf_generate_hpa a e) (by decide)]
      split <;> simp
    · dsimp only
      rw [scalingKinds_optList_one (K3sApp.kindOf_generate_httpscaledobject a e cfg) (by decide)]
      split <;> simp
    · dsimp only
      rw [scalingKinds_append,
        scalingKinds_optList_zero (K3sApp.kindOf_generate_trigger_authentication a e) (by decide),
        scalingKinds_optList_one (K3sApp.kindOf_generate_keda_scaledobject_queue a e) (by decide)]
      split <;> simp
    · dsimp only
      rw [scalingKinds_optList_one (K3sApp.kindOf_generate_keda_scaledobject_cron a e) (by decide)]
      split <;> simp
    · simp [scalingKinds]
  · intro h
    rw [hc, h]
    rfl
  · intro h
    rw [hc, h]
    dsimp only
    rw [scalingKinds_optList_one (K3sApp.kindOf_generate_httpscaledobject a e cfg) (by decide)]
    rw [K3sApp.isSome_generate_httpscaledobject a e cfg h]
    rfl
  · intro h
    rw [hc, h]
    dsimp only
    rw [scalingKinds_optList_one (K3sApp.kindOf_generate_hpa a e) (by decide)]
    rw [K3sApp.isSome_generate_hpa a e h]
    rfl
  · intro h
    rw [hc, h]
    dsimp only
    rw [scalingKinds_optList_one (K3sApp.kindOf_generate_keda_scaledobject_cron a e) (by decide)]
    rw [K3sApp.isSome_generate_keda_scaledobject_cron a e h]
    rfl
  · intro h
    rw [hc, h]
    dsimp only
    rw [scalingKinds_append,
      scalingKinds_optList_zero (K3sApp.kindOf_generate_trigger_authentication a e) (by decide),
      scalingKinds_optList_one (K3sApp.kindOf_generate_keda_scaledobject_queue a e) (by decide)]
    by_cases hq : (K3sApp.generate_keda_scaledobject_queue a e).isSome = true
    · right
      rw [hq]
      rfl
    · left
      rw [Bool.not_eq_true] at hq
      rw [hq]
      rfl

/-- C1: manifest generation is deterministic — two runs of
`generate_all_manifests` (and of each individual generator) with
identical inputs and an identical process environment produce
identical output manifest lists. -/
theorem generators_deterministic
    (a₁ a₂ : K3sApp.AppConfig) (e₁ e₂ : K3sApp.Environment)
    (cfg₁ cfg₂ : K3sApp.AppsYamlConfig) (img₁ img₂ : String)
    (pe₁ pe₂ : List (String × String))
    (ha : a₁ = a₂) (he : e₁ = e₂) (hcfg : cfg₁ = cfg₂) (himg : img₁ = img₂)
    (hpe : pe₁ = pe₂) :
    K3sApp.generate_all_manifests a₁ e₁ cfg₁ pe₁
      = K3sApp.generate_all_manifests a₂ e₂ cfg₂ pe₂
    ∧ K3sApp.generate_deployment a₁ e₁ img₁ cfg₁ pe₁
      = K3sApp.generate_deployment a₂ e₂ img₂ cfg₂ pe₂
    ∧ K3sApp.generate_service a₁ e₁ = K3sApp.generate_service a₂ e₂
    ∧ K3sApp.generate_httpscaledobject a₁ e₁ cfg₁ = K3sApp.generate_httpscaledobject a₂ e₂ cfg₂
    ∧ K3sApp.generate_hpa a₁ e₁ = K3sApp.generate_hpa a₂ e₂
    ∧ K3sApp.generate_keda_route_service a₁ e₁ = K3sApp.generate_keda_route_service a₂ e₂
    ∧ K3sApp.generate_haproxy_ingress a₁ e₁ cfg₁ = K3sApp.generate_haproxy_ingress a₂ e₂ cfg₂
    ∧ K3sApp.generate_traefik_ingress a₁ e₁ cfg₁ = K3sApp.generate_traefik_ingress a₂ e₂ cfg₂
    ∧ K3sApp.generate_traefik_middleware a₁ e₁ = K3sApp.generate_traefik_middleware a₂ e₂
    ∧ K3sApp.generate_ingress a₁ e₁ cfg₁ = K3sApp.generate_ingress a₂ e₂ cfg₂
    ∧ K3sApp.generate_network_policy a₁ e₁ cfg₁ = K3sApp.generate_network_policy a₂ e₂ cfg₂
    ∧ K3sApp.generate_pdb a₁ e₁ = K3sApp.generate_pdb a₂ e₂
    ∧ K3sApp.generate_service_account a₁ e₁ = K3sApp.generate_service_account a₂ e₂
    ∧ K3sApp.generate_trigger_authentication a₁ e₁ = K3sApp.generate_trigger_authentication a₂ e₂
    ∧ K3sApp.generate_keda_scaledobject_queue a₁ e₁ = K3sApp.generate_keda_scaledobject_queue a₂ e₂
    ∧ K3sApp.generate_keda_scaledobject_cron a₁ e₁ = K3sApp.generate_keda_scaledobject_cron a₂ e₂
    ∧ K3sApp.generate_external_secret a₁ e₁ = K3sApp.generate_external_secret a₂ e₂ := by
  subst ha he hcfg himg hpe
  exact ⟨rfl, rfl, rfl, rfl, rfl, rfl, rfl, rfl, rfl, rfl, rfl, rfl, rfl, rfl, rfl, rfl, rfl⟩

/-- Witness for `generators_deterministic` at a concrete app. -/
theorem generators_deterministic_witness :
    K3sApp.generate_all_manifests exampleNoneApp .LOCAL exampleEmptyCfg []
      = K3sApp.generate_all_manifests exampleNoneApp .LOCAL exampleEmptyCfg [] :=
  (generators_deterministic exampleNoneApp exampleNoneApp .LOCAL .LOCAL
    exampleEmptyCfg exampleEmptyCfg "img" "img" [] [] rfl rfl rfl rfl rfl).1

/-- C5 (amended): for apps, the generated Deployment's
`spec.replicas` equals the environment override's `replicas` when it
is explicitly set (including 0); otherwise the effective scaling's
`min_instances`, except 1 when the effective scaling type is NONE.
For compose services (with an image), `spec.replicas` equals the
compose file's `deploy.replicas`, and an apps.yaml override `replicas`
takes precedence only when it is nonzero. -/
theorem deployment_replicas (a : K3sApp.AppConfig) (e : K3sApp.Environment)
    (img : String) (cfg : K3sApp.AppsYamlConfig) (pe : List (String × String))
    (svc : K3sCompose.ComposeService) (proj : K3sCompose.ComposeProject)
    (ns : String) (reg : Option String) (ov : Option K3sCompose.ComposeOverrides) :
    (∀ ovr r, a.get_env_override e = some ovr → ovr.replicas = some r →
      getPath ["spec", "replicas"] (K3sApp.generate_deployment a e img cfg pe)
        = some (Val.num r))
    ∧ ((∀ ovr, a.get_env_override e = some ovr → ovr.replicas = none) →
        ((a.get_effective_scaling e).type ≠ K3sApp.ScalingType.NONE →
          getPath ["spec", "replicas"] (K3sApp.generate_deployment a e img cfg pe)
            = some (Val.num (a.get_effective_scaling e).min_instances))
        ∧ ((a.get_effective_scaling e).type = K3sApp.ScalingType.NONE →
          getPath ["spec", "replicas"] (K3sApp.generate_deployment a e img cfg pe)
            = some (Val.num 1)))
    ∧ (pySome svc.image = true →
      ∃ d, K3sCompose.generate_deployment svc proj ns reg ov = .ok d ∧
        getPath ["spec", "replicas"] d = some (Val.num
          (match ov with
           | some o =>
             match o.replicas with
             | some r => if r == 0 then svc.deploy.replicas else r
             | none => svc.deploy.replicas
           | none => svc.deploy.replicas))) := by
  refine ⟨?_, ?_, ?_⟩
  · intro ovr r hov hr
    simp only [K3sApp.replicas_of_generate_deployment, hov, hr]
  · intro hnone
    rcases hov : a.get_env_override e with _ | ovr
    · constructor
      · intro htype
        simp only [K3sApp.replicas_of_generate_deployment, hov]
        rw [if_pos htype]
      · intro htype
        simp only [K3sApp.replicas_of_generate_deployment, hov]
        rw [if_neg (by simp [htype])]
    · have hre := hnone ovr hov
      constructor
      · intro htype
        simp only [K3sApp.replicas_of_generate_deployment, hov, hre]
        rw [if_pos htype]
      · intro htype
        simp only [K3sApp.replicas_of_generate_deployment, hov, hre]
        rw [if_neg (by simp [htype])]
  · intro himg
    unfold K3sCompose.generate_deployment
    dsimp only
    rw [if_pos himg]
    exact ⟨_, rfl, rfl⟩

/-- Witness for `deployment_replicas` at concrete inputs. -/
theorem deployment_replicas_witness :
    getPath ["spec", "replicas"]
      (K3sApp.generate_deployment exampleOverrideApp .LOCAL "img" exampleEmptyCfg [])
      = some (Val.num 7)
    ∧ ∃ d, K3sCompose.generate_deployment exampleComposeWeb exampleProjectOk "apps"
        none none = .ok d ∧
        getPath ["spec", "replicas"] d = some (Val.num 3) :=
  ⟨(deployment_replicas exampleOverrideApp .LOCAL "img" exampleEmptyCfg []
      exampleComposeWeb exampleProjectOk "apps" none none).1
      { replicas := some 7 } 7 rfl rfl,
   (deployment_replicas exampleOverrideApp .LOCAL "img" exampleEmptyCfg []
      exampleComposeWeb exampleProjectOk "apps" none none).2.2 rfl⟩

/-- C5 counterexample: a compose override that explicitly sets
`replicas: 0` is ignored (Python truthiness), so the claim that an
explicit override takes precedence including the value 0 is false. -/
theorem compose_zero_replicas_override_ignored :
    replicasOfResult
      (K3sCompose.generate_deployment exampleComposeWeb exampleProjectOk "apps" none
        (some { replicas := some 0 }))
      = some (Val.num 3)
    ∧ (3 : Int) ≠ 0 := by
  constructor
  · rfl
  · decide

/-- Witness for `scaling_manifest_dispatch` at a NONE-scaled app. -/
theorem scaling_manifest_dispatch_witness :
    scalingKinds (K3sApp.generate_all_manifests exampleNoneApp .LOCAL exampleEmptyCfg []) = [] :=
  (scaling_manifest_dispatch exampleNoneApp .LOCAL exampleEmptyCfg []).2.1 rfl

/-! ## Claim theorems: C3, C6, C7, C8, C10 -/

/-- C10: for every app whose effective scaling type is HPA, the
generated HorizontalPodAutoscaler's `spec.minReplicas` equals
`min_instances` when that value is nonzero and is coerced to 1 when it
is 0 (Python `min_instances or 1`), so with a nonnegative
`min_instances` the HPA can never be configured to scale to zero. -/
theorem hpa_min_replicas (a : K3sApp.AppConfig) (e : K3sApp.Environment)
    (h : (a.get_effective_scaling e).type = K3sApp.ScalingType.HPA) :
    ∃ m, K3sApp.generate_hpa a e = some m ∧
      getPath ["spec", "minReplicas"] m =
        some (Val.num (if (a.get_effective_scaling e).min_instances = 0 then 1
                       else (a.get_effective_scaling e).min_instances)) ∧
      (0 ≤ (a.get_effective_scaling e).min_instances →
        ∀ v : Int, getPath ["spec", "minReplicas"] m = some (Val.num v) → 1 ≤ v) := by
  have hval : pyOrInt (a.get_effective_scaling e).min_instances 1 =
      if (a.get_effective_scaling e).min_instances = 0 then 1
      else (a.get_effective_scaling e).min_instances := by
    simp [pyOrInt]
  unfold K3sApp.generate_hpa
  rw [if_neg (by simp [h])]
  refine ⟨_, rfl, ?_, ?_⟩
  · show some (Val.num (pyOrInt (a.get_effective_scaling e).min_instances 1)) = _
    rw [hval]
  · intro h0 v hv
    have hv2 : some (Val.num (pyOrInt (a.get_effective_scaling e).min_instances 1))
        = some (Val.num v) := hv
    rw [hval] at hv2
    injection hv2 with hv3
    injection hv3 with hv4
    by_cases hz : (a.get_effective_scaling e).min_instances = 0
    · rw [hz] at hv4
      simp at hv4
      omega
    · rw [if_neg hz] at hv4
      omega

/-- Helper for C6: a RESTRICTED k3sapp configuration with an empty
`allow_from` list yields exactly the KEDA-namespace ingress rule. -/
theorem k3sapp_restricted_empty (a : K3sApp.AppConfig) (e : K3sApp.Environment)
    (cfg : K3sApp.AppsYamlConfig)
    (h1 : a.security.network_policy.enabled = true)
    (h2 : a.security.visibility = K3sApp.Visibility.RESTRICTED)
    (h3 : a.security.network_policy.allow_from = []) :
    ∃ np, K3sApp.generate_network_policy a e cfg = some np ∧
      getPath ["spec", "ingress"] np =
        some (Val.arr [K3sApp.kedaIngressRule (a.get_primary_port).container_port]) := by
  unfold K3sApp.generate_network_policy
  rw [if_neg (by simp [h1])]
  refine ⟨_, rfl, ?_⟩
  simp only [h2, h3]
  rfl

/-- Helper for C6: every k3sapp NetworkPolicy starts with the
KEDA-namespace ingress rule. -/
theorem k3sapp_keda_rule_first (a : K3sApp.AppConfig) (e : K3sApp.Environment)
    (cfg : K3sApp.AppsYamlConfig) :
    ∀ np, K3sApp.generate_network_policy a e cfg = some np →
      ∃ rest, getPath ["spec", "ingress"] np =
        some (Val.arr (K3sApp.kedaIngressRule (a.get_primary_port).container_port :: rest)) := by
  intro np h
  unfold K3sApp.generate_network_policy at h
  dsimp only at h
  split at h
  · cases h
  · cases h
    exact ⟨_, rfl⟩

/-- Helper for C6: a RESTRICTED k3sfn function with no access rules
and an HTTP trigger yields exactly the KEDA-namespace ingress rule. -/
theorem k3sfn_restricted_empty (func : K3sFn.FunctionMetadata) (app_name ns : String)
    (h1 : func.visibility = K3sFn.Visibility.RESTRICTED)
    (h2 : func.trigger_type = K3sFn.TriggerType.HTTP)
    (h3 : func.access_rules = none ∨
      ∃ r, func.access_rules = some r ∧ r.namespaces = [] ∧ r.pod_labels = []) :
    getPath ["spec", "ingress"] (K3sFn.generate_network_policy func app_name ns)
      = some (Val.arr [K3sFn.kedaFnRule]) := by
  unfold K3sFn.generate_network_policy
  rcases h3 with h3 | ⟨r, h3, hns, hpl⟩
  · simp only [h1, h2, h3]
    rfl
  · simp only [h1, h2, h3, hns, hpl]
    rfl

/-- C6 counterexample: for an INTERNAL-visibility k3sfn function the
generated NetworkPolicy's ingress consists of the any-namespace rule
only — the KEDA (autoscaler-namespace) rule is NOT appended, so the
claim that it is appended unconditionally for every visibility level
is false. -/
theorem k3sfn_internal_lacks_keda_rule :
    getPath ["spec", "ingress"]
      (K3sFn.generate_network_policy exampleInternalFn "app" "apps")
      = some (Val.arr [Val.obj
        [("from", Val.arr [Val.obj [("namespaceSelector", Val.obj [])]]),
         ("ports", Val.arr
           [Val.obj [("protocol", Val.str "TCP"), ("port", Val.num 8080)]])]])
    ∧ ¬ ∃ rest, getPath ["spec", "ingress"]
        (K3sFn.generate_network_policy exampleInternalFn "app" "apps")
        = some (Val.arr (K3sFn.kedaFnRule :: rest)) := by
  have heq : getPath ["spec", "ingress"]
      (K3sFn.generate_network_policy exampleInternalFn "app" "apps")
      = some (Val.arr [Val.obj
        [("from", Val.arr [Val.obj [("namespaceSelector", Val.obj [])]]),
         ("ports", Val.arr
           [Val.obj [("protocol", Val.str "TCP"), ("port", Val.num 8080)]])]]) := rfl
  refine ⟨heq, ?_⟩
  intro ⟨rest, hcon⟩
  rw [heq] at hcon
  simp [K3sFn.kedaFnRule] at hcon


/-- C6 (amended): in the k3sapp generator a RESTRICTED configuration
with an empty `allow_from` list yields ingress rules equal to exactly
the KEDA-namespace allowance, and the KEDA rule is the first ingress
rule of every generated NetworkPolicy (unconditional).  In the k3sfn
generator the KEDA rule is appended only conditionally: always for
PUBLIC, and for RESTRICTED (with no access rules) exactly when the
trigger type is HTTP. -/
theorem network_policy_keda_rule (a : K3sApp.AppConfig) (e : K3sApp.Environment)
    (cfg : K3sApp.AppsYamlConfig) (func : K3sFn.FunctionMetadata) (app_name ns : String) :
    (a.security.network_policy.enabled = true →
      a.security.visibility = K3sApp.Visibility.RESTRICTED →
      a.security.network_policy.allow_from = [] →
      ∃ np, K3sApp.generate_network_policy a e cfg = some np ∧
        getPath ["spec", "ingress"] np =
          some (Val.arr [K3sApp.kedaIngressRule (a.get_primary_port).container_port]))
    ∧ (∀ np, K3sApp.generate_network_policy a e cfg = some np →
        ∃ rest, getPath ["spec", "ingress"] np =
          some (Val.arr
            (K3sApp.kedaIngressRule (a.get_primary_port).container_port :: rest)))
    ∧ (func.visibility = K3sFn.Visibility.RESTRICTED →
        func.trigger_type = K3sFn.TriggerType.HTTP →
        (func.access_rules = none ∨
          ∃ r, func.access_rules = some r ∧ r.namespaces = [] ∧ r.pod_labels = []) →
        getPath ["spec", "ingress"] (K3sFn.generate_network_policy func app_name ns)
          = some (Val.arr [K3sFn.kedaFnRule]))
    ∧ (func.visibility = K3sFn.Visibility.PUBLIC →
        ∃ pre, getPath ["spec", "ingress"] (K3sFn.generate_network_policy func app_name ns)
          = some (Val.arr (pre ++ [K3sFn.kedaFnRule]))) := by
  refine ⟨?_, ?_, ?_, ?_⟩
  · intro h1 h2 h3
    exact k3sapp_restricted_empty a e cfg h1 h2 h3
  · exact k3sapp_keda_rule_first a e cfg
  · intro h1 h2 h3
    exact k3sfn_restricted_empty func app_name ns h1 h2 h3
  · intro h1
    unfold K3sFn.generate_network_policy
    simp only [h1]
    exact ⟨[Val.obj
      [("from", Val.arr
        [Val.obj
          [("namespaceSelector", Val.obj
            [("matchLabels", Val.obj
              [("kubernetes.io/metadata.name", Val.str "kube-system")])]),
           ("podSelector", Val.obj
             [("matchLabels", Val.obj
               [("app.kubernetes.io/name", Val.str "traefik")])])]]),
       ("ports", Val.arr
         [Val.obj [("protocol", Val.str "TCP"), ("port", Val.num 8080)]])]], rfl⟩

/-- Witness for `network_policy_keda_rule` at concrete inputs. -/
theorem network_policy_keda_rule_witness :
    (∃ np, K3sApp.generate_network_policy exampleRestrictedApp .LOCAL exampleEmptyCfg
        = some np ∧
      getPath ["spec", "ingress"] np = some (Val.arr [K3sApp.kedaIngressRule 8080]))
    ∧ getPath ["spec", "ingress"]
        (K3sFn.generate_network_policy exampleRestrictedFn "app" "apps")
        = some (Val.arr [K3sFn.kedaFnRule]) :=
  ⟨(network_policy_keda_rule exampleRestrictedApp .LOCAL exampleEmptyCfg
      exampleRestrictedFn "app" "apps").1 rfl rfl rfl,
   (network_policy_keda_rule exampleRestrictedApp .LOCAL exampleEmptyCfg
      exampleRestrictedFn "app" "apps").2.2.1 rfl rfl (Or.inl rfl)⟩


/-- Witness for `hpa_min_replicas` at a concrete HPA-scaled app. -/
theorem hpa_min_replicas_witness :
    ∃ m, K3sApp.generate_hpa exampleHpaApp .LOCAL = some m ∧
      getPath ["spec", "minReplicas"] m = some (Val.num 1) ∧
      (0 ≤ (exampleHpaApp.get_effective_scaling .LOCAL).min_instances →
        ∀ v : Int, getPath ["spec", "minReplicas"] m = some (Val.num v) → 1 ≤ v) :=
  hpa_min_replicas exampleHpaApp .LOCAL rfl

theorem foldl_append_filter {α : Type} (p : α → Bool) :
    ∀ (l : List α) (acc : List α),
      l.foldl (fun acc x => if p x then acc ++ [x] else acc) acc = acc ++ l.filter p := by
  intro l
  induction l with
  | nil => intro acc; simp
  | cons x t ih =>
    intro acc
    rw [List.foldl_cons]
    by_cases h : p x = true
    · rw [if_pos h, ih, List.filter_cons_of_pos h]
      simp
    · rw [if_neg h, ih, List.filter_cons_of_neg (by simp [h])]

theorem get_enabled_apps_eq_filter (e : K3sApp.Environment) (cfg : K3sApp.AppsYamlConfig) :
    K3sApp.get_enabled_apps e cfg
      = cfg.apps.filter (fun a => K3sApp.appEnabledFor a e) := by
  unfold K3sApp.get_enabled_apps
  have hstep : ∀ (acc : List K3sApp.AppConfig) (app : K3sApp.AppConfig),
      (if !app.enabled then acc
       else
         match app.get_env_override e with
         | some ov => if ov.enabled = some false then acc else acc ++ [app]
         | none => acc ++ [app])
      = if K3sApp.appEnabledFor app e then acc ++ [app] else acc := by
    intro acc app
    unfold K3sApp.appEnabledFor
    by_cases he : app.enabled = true
    · rcases hov : app.get_env_override e with _ | ov
      · simp [he, hov]
      · by_cases hen : ov.enabled = some false
        · simp [he, hov, hen]
        · simp [he, hov, hen]
    · simp [Bool.not_eq_true] at he
      simp [he]
  simp only [hstep]
  exact foldl_append_filter _ cfg.apps []

/-- C7: an app is kept by `get_enabled_apps` exactly when its global
`enabled` flag is true and its environment override either does not
set `enabled` or does not set it to false; a compose project's
`is_enabled` holds exactly when its global flag is true and its
override's `enabled` is true (the parse-time default when unset); and
both computations are idempotent. -/
theorem enabled_for_environment (cfg : K3sApp.AppsYamlConfig) (e : K3sApp.Environment)
    (a : K3sApp.AppConfig) (c : K3sCompose.ComposeConfig) (e2 : K3sCompose.Environment) :
    K3sApp.get_enabled_apps e cfg
      = cfg.apps.filter (fun x => K3sApp.appEnabledFor x e)
    ∧ (K3sApp.appEnabledFor a e = true ↔
        a.enabled = true ∧ ∀ ov, a.get_env_override e = some ov → ov.enabled ≠ some false)
    ∧ (c.is_enabled e2 = true ↔
        c.enabled = true ∧ ∀ ov, c.get_env_override e2 = some ov → ov.enabled = true)
    ∧ K3sApp.get_enabled_apps e cfg = K3sApp.get_enabled_apps e cfg
    ∧ c.is_enabled e2 = c.is_enabled e2 := by
  refine ⟨get_enabled_apps_eq_filter e cfg, ?_, ?_, rfl, rfl⟩
  · unfold K3sApp.appEnabledFor
    rcases hov : a.get_env_override e with _ | ov
    · simp [hov]
    · by_cases hen : ov.enabled = some false <;> simp [hov, hen]
  · unfold K3sCompose.ComposeConfig.is_enabled
    rcases hov : c.get_env_override e2 with _ | ov
    · simp [hov]
    · by_cases hen : ov.enabled = true <;> simp [hov, hen]

theorem dictGet?_append {α : Type} (l1 l2 : List (String × α)) (k : String) :
    dictGet? (l1 ++ l2) k =
      match dictGet? l1 k with
      | some v => some v
      | none => dictGet? l2 k := by
  induction l1 with
  | nil => simp [dictGet?]
  | cons p t ih =>
    by_cases h : p.1 = k
    · simp [dictGet?, h]
    · simp [dictGet?, h, ih]

theorem foldl_dictInsert_env (k : String) :
    ∀ (l : List (String × String)) (base : List (String × K3sApp.EnvironmentValue)),
      dictGet? (l.foldl (fun r kv => dictInsert r kv.1
        { value := some kv.2, secret_ref := none }) base) k
      = match lastGet? l k with
        | some v => some { value := some v, secret_ref := none }
        | none => dictGet? base k := by
  intro l
  induction l with
  | nil => intro base; rfl
  | cons kv t ih =>
    intro base
    rw [List.foldl_cons, ih]
    have hrev : lastGet? (kv :: t) k =
        match lastGet? t k with
        | some v => some v
        | none => if kv.1 = k then some kv.2 else none := by
      unfold lastGet?
      rw [List.reverse_cons, dictGet?_append]
      rcases dictGet? t.reverse k with _ | v
      · simp [dictGet?]
      · rfl
    rw [hrev]
    rcases lastGet? t k with _ | v
    · rw [dictGet?_dictInsert]
      rcases h : (decide (kv.1 = k)) with _ | _
      · simp at h
        simp [h]
      · simp at h
        simp [h]
    · rfl

/-- C8: override resolution replaces explicitly-set `scaling` and
`resources` blocks wholesale (and keeps the base block when the
override does not set them), while the environment-variable map merges
key-by-key: a key written by the override maps to the override's value
(wrapped as a literal `EnvironmentValue`), a key not written by the
override keeps the base value, and every base key remains present. -/
theorem override_resolution (a : K3sApp.AppConfig) (e : K3sApp.Environment) :
    (∀ ov sc, a.get_env_override e = some ov → ov.scaling = some sc →
      a.get_effective_scaling e = sc)
    ∧ ((∀ ov, a.get_env_override e = some ov → ov.scaling = none) →
        a.get_effective_scaling e = a.scaling)
    ∧ (∀ ov rs, a.get_env_override e = some ov → ov.resources = some rs →
        a.get_effective_resources e = rs)
    ∧ ((∀ ov, a.get_env_override e = some ov → ov.resources = none) →
        a.get_effective_resources e = a.resources)
    ∧ (∀ ov k v, a.get_env_override e = some ov →
        lastGet? ov.environment k = some v →
        dictGet? (a.get_effective_environment e) k
          = some { value := some v, secret_ref := none })
    ∧ (∀ ov k, a.get_env_override e = some ov →
        lastGet? ov.environment k = none →
        dictGet? (a.get_effective_environment e) k = dictGet? a.environment k)
    ∧ (∀ k, (dictGet? a.environment k).isSome = true →
        (dictGet? (a.get_effective_environment e) k).isSome = true) := by
  refine ⟨?_, ?_, ?_, ?_, ?_, ?_, ?_⟩
  · intro ov sc hov hsc
    unfold K3sApp.AppConfig.get_effective_scaling
    simp only [hov, hsc]
  · intro hnone
    unfold K3sApp.AppConfig.get_effective_scaling
    rcases hov : a.get_env_override e with _ | ov
    · rfl
    · simp only [hnone ov hov]
  · intro ov rs hov hrs
    unfold K3sApp.AppConfig.get_effective_resources
    simp only [hov, hrs]
  · intro hnone
    unfold K3sApp.AppConfig.get_effective_resources
    rcases hov : a.get_env_override e with _ | ov
    · rfl
    · simp only [hnone ov hov]
  · intro ov k v hov hlast
    unfold K3sApp.AppConfig.get_effective_environment
    simp only [hov]
    rw [foldl_dictInsert_env, hlast]
  · intro ov k hov hlast
    unfold K3sApp.AppConfig.get_effective_environment
    simp only [hov]
    rw [foldl_dictInsert_env, hlast]
  · intro k hsome
    unfold K3sApp.AppConfig.get_effective_environment
    rcases hov : a.get_env_override e with _ | ov
    · exact hsome
    · simp only
      rw [foldl_dictInsert_env]
      rcases hl : lastGet? ov.environment k with _ | v
      · exact hsome
      · rfl

theorem batchLoop_cons_ok (env : K3sCompose.Environment) (reg : Option String)
    (x : K3sCompose.BatchEntry) (l : List K3sCompose.BatchEntry)
    (proj : K3sCompose.ComposeProject) (ms : List Val)
    (hres : x.resolved = .ok proj)
    (hgen : K3sCompose.generate_all_manifests proj x.config env reg none = .ok ms) :
    K3sCompose.batchLoop env reg (x :: l) =
      ((x.config.name, ms) :: (K3sCompose.batchLoop env reg l).1,
       (K3sCompose.batchLoop env reg l).2) := by
  rcases hl : K3sCompose.batchLoop env reg l with ⟨restOut, err⟩
  rw [K3sCompose.batchLoop]
  simp only [hres, hgen, hl]

theorem batchLoop_cons_err (env : K3sCompose.Environment) (reg : Option String)
    (x : K3sCompose.BatchEntry) (l : List K3sCompose.BatchEntry)
    (s : String) (hres : x.resolved = .error s) :
    K3sCompose.batchLoop env reg (x :: l) = K3sCompose.batchLoop env reg l := by
  rw [K3sCompose.batchLoop]
  simp only [hres]

theorem batchLoop_cons_genfail (env : K3sCompose.Environment) (reg : Option String)
    (x : K3sCompose.BatchEntry) (l : List K3sCompose.BatchEntry)
    (proj : K3sCompose.ComposeProject) (msg : String)
    (hres : x.resolved = .ok proj)
    (hgen : K3sCompose.generate_all_manifests proj x.config env reg none = .error msg) :
    K3sCompose.batchLoop env reg (x :: l) = ([], some msg) := by
  rw [K3sCompose.batchLoop]
  simp only [hres, hgen]

/-- C3 (amended): in the compose `generate-all` batch loop, an entry
whose compose file fails to resolve (`FileNotFoundError`) is reported
and skipped, and the batch continues; but a generator-internal
invariant violation (`ValueError`, e.g. a service with neither image
nor build) aborts the batch at that entry — the failure is reported,
manifests already written for earlier entries are unaffected (the
output equals that of running the batch on the prefix alone), and
later entries are not generated. -/
theorem batch_error_behavior :
    (∀ (x : K3sCompose.BatchEntry) (rest : List K3sCompose.BatchEntry)
        (env : K3sCompose.Environment) (reg : Option String) (s : String),
      x.resolved = .error s →
      K3sCompose.cmd_generate_all (x :: rest) env reg
        = K3sCompose.cmd_generate_all rest env reg)
    ∧ (∀ (pre : List K3sCompose.BatchEntry) (bad : K3sCompose.BatchEntry)
        (rest : List K3sCompose.BatchEntry) (env : K3sCompose.Environment)
        (reg : Option String) (badProj : K3sCompose.ComposeProject) (msg : String),
        (∀ x ∈ pre, x.config.is_enabled env = true) →
        (∀ x ∈ pre, ∃ proj, x.resolved = .ok proj ∧
          isOkB (K3sCompose.generate_all_manifests proj x.config env reg none) = true) →
        bad.config.is_enabled env = true →
        bad.resolved = .ok badProj →
        K3sCompose.generate_all_manifests badProj bad.config env reg none = .error msg →
        (K3sCompose.cmd_generate_all (pre ++ bad :: rest) env reg).2 = some msg
        ∧ (K3sCompose.cmd_generate_all (pre ++ bad :: rest) env reg).1
            = (K3sCompose.cmd_generate_all pre env reg).1) := by
  constructor
  · intro x rest env reg s hres
    unfold K3sCompose.cmd_generate_all
    rw [List.filter_cons]
    by_cases hen : x.config.is_enabled env = true
    · simp only [hen, if_true]
      rw [batchLoop_cons_err env reg x _ s hres]
    · simp [hen]
  · intro pre bad rest env reg badProj msg hpre1 hpre2 hben hbres hbgen
    induction pre with
    | nil =>
      unfold K3sCompose.cmd_generate_all
      rw [List.nil_append, List.filter_cons]
      simp only [hben, if_true]
      rw [batchLoop_cons_genfail env reg bad _ badProj msg hbres hbgen]
      exact ⟨rfl, rfl⟩
    | cons x pre' ih =>
      have hxen : x.config.is_enabled env = true := hpre1 x (by simp)
      obtain ⟨proj, hxres, hxok⟩ := hpre2 x (by simp)
      obtain ⟨ms, hxgen⟩ : ∃ ms,
          K3sCompose.generate_all_manifests proj x.config env reg none = .ok ms := by
        rcases hg : K3sCompose.generate_all_manifests proj x.config env reg none with er | ms
        · rw [hg] at hxok
          simp [isOkB] at hxok
        · exact ⟨ms, rfl⟩
      have ih2 := ih (fun y hy => hpre1 y (by simp [hy]))
        (fun y hy => hpre2 y (by simp [hy]))
      unfold K3sCompose.cmd_generate_all at ih2 ⊢
      rw [List.cons_append, List.filter_cons, List.filter_cons]
      simp only [hxen, if_true]
      rw [batchLoop_cons_ok env reg x _ proj ms hxres hxgen,
        batchLoop_cons_ok env reg x _ proj ms hxres hxgen]
      exact ⟨ih2.1, by rw [ih2.2]⟩


/-- Witness for `override_resolution` at a concrete app. -/
theorem override_resolution_witness :
    K3sApp.AppConfig.get_effective_scaling exampleEnvApp .LOCAL = { type := .NONE }
    ∧ dictGet? (K3sApp.AppConfig.get_effective_environment exampleEnvApp .LOCAL) "A"
        = some { value := some "ovr", secret_ref := none }
    ∧ (dictGet? (K3sApp.AppConfig.get_effective_environment exampleEnvApp .LOCAL) "B").isSome
        = true :=
  ⟨(override_resolution exampleEnvApp .LOCAL).1 exampleEnvOverride { type := .NONE } rfl rfl,
   (override_resolution exampleEnvApp .LOCAL).2.2.2.2.1 exampleEnvOverride "A" "ovr" rfl rfl,
   (override_resolution exampleEnvApp .LOCAL).2.2.2.2.2.2 "B" rfl⟩

/-- Witness for `batch_error_behavior` at a concrete batch. -/
theorem batch_error_behavior_witness :
    (K3sCompose.cmd_generate_all
      [⟨exampleCfg1, .ok exampleProjectOk⟩, ⟨exampleCfg2, .ok exampleProjectBad⟩,
       ⟨exampleCfg3, .ok exampleProjectOk⟩] .LOCAL none).2
      = some "Service bad has no image or build context"
    ∧ (K3sCompose.cmd_generate_all
        [⟨exampleCfg1, .ok exampleProjectOk⟩, ⟨exampleCfg2, .ok exampleProjectBad⟩,
         ⟨exampleCfg3, .ok exampleProjectOk⟩] .LOCAL none).1
      = (K3sCompose.cmd_generate_all [⟨exampleCfg1, .ok exampleProjectOk⟩] .LOCAL none).1 :=
  batch_error_behavior.2 [⟨exampleCfg1, .ok exampleProjectOk⟩]
    ⟨exampleCfg2, .ok exampleProjectBad⟩ [⟨exampleCfg3, .ok exampleProjectOk⟩]
    .LOCAL none exampleProjectBad "Service bad has no image or build context"
    (by intro x hx; simp at hx; subst hx; rfl)
    (by intro x hx; simp at hx; subst hx; exact ⟨exampleProjectOk, rfl, rfl⟩)
    rfl rfl rfl

/-- C3 counterexample: in a batch of three enabled, resolvable
projects where the second contains a service with neither image nor
build, only the first project's manifests are emitted and the error is
reported — the third project, although enabled and generable, is never
generated, so the claim that the batch continues to the next entry is
false. -/
theorem batch_abort_not_continue :
    (K3sCompose.cmd_generate_all
      [⟨exampleCfg1, .ok exampleProjectOk⟩, ⟨exampleCfg2, .ok exampleProjectBad⟩,
       ⟨exampleCfg3, .ok exampleProjectOk⟩] .LOCAL none).1.map Prod.fst = ["p1"]
    ∧ (K3sCompose.cmd_generate_all
        [⟨exampleCfg1, .ok exampleProjectOk⟩, ⟨exampleCfg2, .ok exampleProjectBad⟩,
         ⟨exampleCfg3, .ok exampleProjectOk⟩] .LOCAL none).2
      = some "Service bad has no image or build context"
    ∧ exampleCfg3.is_enabled .LOCAL = true
    ∧ isOkB (K3sCompose.generate_all_manifests exampleProjectOk exampleCfg3 .LOCAL
        none none) = true :=
  ⟨rfl, rfl, rfl, rfl⟩

/-- Witness for `enabled_for_environment` at concrete configs. -/
theorem enabled_for_environment_witness :
    K3sApp.get_enabled_apps .LOCAL exampleAppsCfg
      = exampleAppsCfg.apps.filter (fun x => K3sApp.appEnabledFor x .LOCAL)
    ∧ (exampleCfg1.enabled = true ∧
        ∀ ov, exampleCfg1.get_env_override .LOCAL = some ov → ov.enabled = true) :=
  ⟨(enabled_for_environment exampleAppsCfg .LOCAL exampleNoneApp exampleCfg1 .LOCAL).1,
   (enabled_for_environment exampleAppsCfg .LOCAL exampleNoneApp
     exampleCfg1 .LOCAL).2.2.1.mp rfl⟩
